import Mathlib

/-!
Verification of the youtube-clone backend's authentication, token-lifecycle,
upload and cascade logic, as a shallow embedding of the JavaScript source.

Conventions of the embedding:
* Mongo ObjectIds are `Nat`; the JS falsy check `!x` on an id is `x = 0`.
* JS strings are Lean `String`; the falsy check `!s` on a string is `s = ""`.
* JWTs are modelled structurally: a signed token is its payload plus the
  secret it was signed with; `jwtVerify` checks secret equality and expiry.
* Database collections are Lean lists; `findOne`/`findById` is `List.find?`,
  `deleteMany` is `List.filter` with the negated predicate.
* `ApiError` carries the HTTP status code and message thrown by the code.
* External effects (cloud uploads/deletes, database deletions) are recorded in
  explicit event traces so ordering claims can be stated.
-/

namespace YtClone

abbrev ObjId := Nat

structure ApiError where
  code : Nat
  msg : String
deriving DecidableEq, Repr

/-! ### JWT model (jsonwebtoken sign/verify) -/

structure JwtPayload where
  uid : ObjId
  iat : Nat
  exp : Nat
deriving DecidableEq, Repr

structure SignedToken where
  payload : JwtPayload
  secret : Nat
deriving DecidableEq, Repr

inductive JwtError
  | invalidSignature
  | expired
deriving DecidableEq, Repr

/-- `jwt.verify(token, secret)` at time `now`: rejects a wrong secret
(`JsonWebTokenError`) and an expired token (`TokenExpiredError`). -/
def jwtVerify (secret : Nat) (now : Nat) (t : SignedToken) : Except JwtError JwtPayload :=
  if t.secret ≠ secret then .error .invalidSignature
  else if t.payload.exp ≤ now then .error .expired
  else .ok t.payload

/-- `ACCESS_TOKEN_SECRET` from constants.js (environment-driven; modelled as
an abstract value distinct from the refresh secret). -/
def ACCESS_TOKEN_SECRET : Nat := 1

/-- `REFRESH_TOKEN_SECRET` from constants.js. -/
def REFRESH_TOKEN_SECRET : Nat := 2

/-- Access token lifetime (default 1 day, in seconds). -/
def ACCESS_TOKEN_EXPIRY : Nat := 86400

/-- Refresh token lifetime (default 10 days, in seconds). -/
def REFRESH_TOKEN_EXPIRY : Nat := 864000

/-! ### User model (src/models/user.model.js) -/

/-- bcrypt.hash with cost 12, modelled as an injective tagging function;
`bcrypt.compare pw digest` is `bcryptHash pw = digest`. -/
def bcryptHash (pw : String) : String := "$2b$12$" ++ pw

structure UserRec where
  id : ObjId
  username : String
  email : String
  fullName : String
  /-- password digest (the schema pre-save hook stores `bcryptHash`) -/
  password : String
  avatar : String
  coverImage : String
  refreshToken : Option SignedToken
deriving DecidableEq, Repr

/-- `userSchema.methods.isPasswordCorrect` (bcrypt.compare). -/
def isPasswordCorrect (u : UserRec) (pw : String) : Bool :=
  u.password = bcryptHash pw

/-- `User.findById` over the users collection. -/
def findUser (users : List UserRec) (i : ObjId) : Option UserRec :=
  users.find? (fun u => u.id = i)

/-- `userSchema.methods.generateAccessToken` (signs id/email/username/fullName;
only the id is consulted downstream, so the payload keeps the id). -/
def generateAccessToken (u : UserRec) (now : Nat) : SignedToken :=
  ⟨⟨u.id, now, now + ACCESS_TOKEN_EXPIRY⟩, ACCESS_TOKEN_SECRET⟩

/-- `userSchema.methods.generateRefreshToken` (signs only the id). -/
def generateRefreshToken (u : UserRec) (now : Nat) : SignedToken :=
  ⟨⟨u.id, now, now + REFRESH_TOKEN_EXPIRY⟩, REFRESH_TOKEN_SECRET⟩

/-- `user.refreshToken = refreshToken; await user.save(...)`: store the new
refresh token on the account record. -/
def saveRefreshToken (users : List UserRec) (uid : ObjId) (t : SignedToken) : List UserRec :=
  users.map (fun u => if u.id = uid then { u with refreshToken := some t } else u)

structure TokenPair where
  accessToken : SignedToken
  refreshToken : SignedToken
deriving DecidableEq, Repr

/-- `generateAccessTokenAndRefreshToken` (user.controller.js lines 14-42):
validates the user object, signs both tokens, persists the refresh token. -/
def generateAccessTokenAndRefreshToken (users : List UserRec) (u : UserRec) (now : Nat) :
    Except ApiError (TokenPair × List UserRec) :=
  if u.id = 0 then .error ⟨400, "Invalid user object provided."⟩
  else
    let accessToken := generateAccessToken u now
    let refreshToken := generateRefreshToken u now
    .ok (⟨accessToken, refreshToken⟩, saveRefreshToken users u.id refreshToken)

/-- `refreshAccessToken` (user.controller.js lines 245-299): requires a
structurally valid, unexpired refresh token that exactly matches the token
stored on the account, then rotates both tokens. -/
def refreshAccessToken (users : List UserRec) (now : Nat) (incoming : Option SignedToken) :
    Except ApiError (TokenPair × List UserRec) :=
  match incoming with
  | none => .error ⟨401, "Unauthorized access."⟩
  | some tok =>
    match jwtVerify REFRESH_TOKEN_SECRET now tok with
    | .error .invalidSignature => .error ⟨401, "Invalid refresh token."⟩
    | .error .expired => .error ⟨401, "Refresh token expired."⟩
    | .ok decoded =>
      if decoded.uid = 0 then .error ⟨401, "Invalid refresh token."⟩
      else
        match findUser users decoded.uid with
        | none => .error ⟨401, "Refresh token is expired or used."⟩
        | some user =>
          match user.refreshToken with
          | none => .error ⟨401, "Refresh token is expired or used."⟩
          | some stored =>
            if stored ≠ tok then .error ⟨401, "Refresh token is expired or used."⟩
            else generateAccessTokenAndRefreshToken users user now

/-! ### Lemmas about token storage -/

theorem jwtVerify_ok_eq (secret now : Nat) (t : SignedToken) (p : JwtPayload)
    (h : jwtVerify secret now t = .ok p) : p = t.payload := by
  unfold jwtVerify at h
  by_cases hs : t.secret = secret
  · by_cases he : t.payload.exp ≤ now
    · simp [hs, he] at h
    · simp only [hs, ne_eq, not_true_eq_false, if_false, he] at h
      simp at h
      exact h.symm
  · simp [hs] at h

theorem findUser_saveRefreshToken (users : List UserRec) (uid : ObjId) (t : SignedToken)
    (u : UserRec) (h : findUser users uid = some u) :
    findUser (saveRefreshToken users uid t) uid = some { u with refreshToken := some t } := by
  induction users with
  | nil => simp [findUser] at h
  | cons x xs ih =>
    by_cases hx : x.id = uid
    · have hxu : x = u := by
        simp only [findUser, List.find?] at h
        rw [show (decide (x.id = uid)) = true by simp [hx]] at h
        exact Option.some.inj h
      subst hxu
      simp only [findUser, saveRefreshToken, List.map_cons, if_pos hx, List.find?]
      rw [show (decide ((({ x with refreshToken := some t } : UserRec)).id = uid)) = true by
        simp [hx]]
    · have hrest : findUser xs uid = some u := by
        simp only [findUser, List.find?] at h
        rw [show (decide (x.id = uid)) = false by simp [hx]] at h
        exact h
      have := ih hrest
      simp only [findUser, saveRefreshToken, List.map_cons, if_neg hx, List.find?]
      rw [show (decide (x.id = uid)) = false by simp [hx]]
      exact this

/-- Every error `refreshAccessToken` can produce carries status 401. -/
theorem refreshAccessToken_error_code (users : List UserRec) (now : Nat)
    (inc : Option SignedToken) (e : ApiError)
    (h : refreshAccessToken users now inc = .error e) : e.code = 401 := by
  rcases inc with _ | tok
  · simp only [refreshAccessToken, Except.error.injEq] at h
    rw [← h]
  · simp only [refreshAccessToken] at h
    split at h
    · exact congrArg ApiError.code (Except.error.inj h).symm
    · exact congrArg ApiError.code (Except.error.inj h).symm
    · rename_i decoded hjv
      split at h
      · exact congrArg ApiError.code (Except.error.inj h).symm
      · rename_i hz
        split at h
        · exact congrArg ApiError.code (Except.error.inj h).symm
        · rename_i user hfind
          split at h
          · exact congrArg ApiError.code (Except.error.inj h).symm
          · rename_i stored hstored
            split at h
            · exact congrArg ApiError.code (Except.error.inj h).symm
            · have huid : user.id = decoded.uid := by
                have := List.find?_some hfind
                simpa using this
              simp only [generateAccessTokenAndRefreshToken, huid, if_neg hz] at h
              simp at h

/-- A successful refresh passes through all the guards of
`refreshAccessToken`, which force the matched branch shape. -/
theorem refreshAccessToken_ok_shape (users : List UserRec) (now : Nat) (tok : SignedToken)
    (pair : TokenPair) (users' : List UserRec)
    (h : refreshAccessToken users now (some tok) = .ok (pair, users')) :
    tok.secret = REFRESH_TOKEN_SECRET ∧ now < tok.payload.exp ∧
      ∃ u, findUser users tok.payload.uid = some u ∧ u.refreshToken = some tok := by
  simp only [refreshAccessToken] at h
  split at h
  · simp at h
  · simp at h
  · rename_i decoded hjv
    have hdec := jwtVerify_ok_eq _ _ _ _ hjv
    subst hdec
    have hse : tok.secret = REFRESH_TOKEN_SECRET ∧ now < tok.payload.exp := by
      unfold jwtVerify at hjv
      by_cases hs : tok.secret = REFRESH_TOKEN_SECRET
      · by_cases he : tok.payload.exp ≤ now
        · simp [hs, he] at hjv
        · exact ⟨hs, by omega⟩
      · simp [hs] at hjv
    refine ⟨hse.1, hse.2, ?_⟩
    split at h
    · simp at h
    · split at h
      · simp at h
      · rename_i user hfind
        split at h
        · simp at h
        · rename_i stored hstored
          split at h
          · simp at h
          · rename_i hst
            have : stored = tok := not_ne_iff.mp hst
            exact ⟨user, hfind, this ▸ hstored⟩

/-- When no account matching the token's id stores exactly this token, the
refresh endpoint answers 401 (whatever the precise failure mode). -/
theorem refresh_mismatch_401 (users : List UserRec) (now : Nat) (tok : SignedToken)
    (h : ∀ u, findUser users tok.payload.uid = some u → u.refreshToken ≠ some tok) :
    ∃ e, refreshAccessToken users now (some tok) = .error e ∧ e.code = 401 := by
  rcases hres : refreshAccessToken users now (some tok) with e | ⟨pair, users'⟩
  · exact ⟨e, rfl, refreshAccessToken_error_code _ _ _ _ hres⟩
  · obtain ⟨-, -, u, hf, hr⟩ := refreshAccessToken_ok_shape _ _ _ _ _ hres
    exact absurd hr (h u hf)

/-- Distinct issuance times give distinct refresh tokens (the `iat` claim
differs). -/
theorem generateRefreshToken_ne (u : UserRec) (t1 t2 : Nat) (h : t1 ≠ t2) :
    generateRefreshToken u t1 ≠ generateRefreshToken u t2 := by
  simp only [generateRefreshToken, ne_eq, SignedToken.mk.injEq, JwtPayload.mk.injEq]
  intro hc
  exact h hc.1.2.1

/-- C1. Refresh-token rotation revokes the prior token: a refresh succeeds
only when the presented token has a valid signature, is unexpired and equals
the stored token; and once a later issuance (login or refresh) has
overwritten the stored token, presenting the earlier token fails with 401. -/
theorem refresh_rotation_revokes_prior_token :
    (∀ (users : List UserRec) (now : Nat) (tok : SignedToken) (pair : TokenPair)
        (users' : List UserRec),
      refreshAccessToken users now (some tok) = .ok (pair, users') →
        tok.secret = REFRESH_TOKEN_SECRET ∧ now < tok.payload.exp ∧
          ∃ u, findUser users tok.payload.uid = some u ∧ u.refreshToken = some tok) ∧
    (∀ (users : List UserRec) (u : UserRec) (t1 t2 now : Nat) (pair : TokenPair)
        (users' : List UserRec),
      findUser users u.id = some u → t1 ≠ t2 →
      generateAccessTokenAndRefreshToken users u t2 = .ok (pair, users') →
        ∃ e, refreshAccessToken users' now (some (generateRefreshToken u t1)) = .error e ∧
          e.code = 401) := by
  constructor
  · exact refreshAccessToken_ok_shape
  · intro users u t1 t2 now pair users' hfind hne hgen
    unfold generateAccessTokenAndRefreshToken at hgen
    by_cases hz : u.id = 0
    · simp [hz] at hgen
    · rw [if_neg hz] at hgen
      simp only [Except.ok.injEq, Prod.mk.injEq] at hgen
      obtain ⟨-, husers⟩ := hgen
      subst husers
      apply refresh_mismatch_401
      intro v hv
      have huid : (generateRefreshToken u t1).payload.uid = u.id := rfl
      rw [huid, findUser_saveRefreshToken users u.id (generateRefreshToken u t2) u hfind] at hv
      have hvv : v = { u with refreshToken := some (generateRefreshToken u t2) } :=
        (Option.some.inj hv).symm
      subst hvv
      simp only [ne_eq, Option.some.injEq]
      exact generateRefreshToken_ne u t2 t1 (fun hc => hne hc.symm)

/-! ### Sample data shared by the concrete witnesses -/

def c1User : UserRec :=
  ⟨1, "alice", "a@x.com", "Alice A", bcryptHash "secret1", "", "", none⟩

/-- State after the second refresh token (issued at time 7) was stored. -/
def c1Users2 : List UserRec :=
  saveRefreshToken [c1User] c1User.id (generateRefreshToken c1User 7)

/-- C1 witness: concrete account; refreshing with the currently stored token
(issued at 7) satisfies the guard conditions, and the superseded token
(issued at 5) is answered with 401. -/
theorem refresh_rotation_revokes_prior_token_witness :
    ((generateRefreshToken c1User 7).secret = REFRESH_TOKEN_SECRET ∧
      10 < (generateRefreshToken c1User 7).payload.exp ∧
      ∃ u, findUser c1Users2 (generateRefreshToken c1User 7).payload.uid = some u ∧
        u.refreshToken = some (generateRefreshToken c1User 7)) ∧
    (∃ e, refreshAccessToken c1Users2 10 (some (generateRefreshToken c1User 5)) = .error e ∧
      e.code = 401) :=
  ⟨refresh_rotation_revokes_prior_token.1 c1Users2 10 (generateRefreshToken c1User 7) _ _ rfl,
   refresh_rotation_revokes_prior_token.2 [c1User] c1User 5 7 10 _ _ rfl (by decide) rfl⟩

/-! ### Authentication middleware (src/middlewares/authentication.middleware.js) -/

/-- A request's credential carriers: the `accessToken` cookie and the
`Authorization: Bearer` header (already stripped of the prefix). -/
structure AuthRequest where
  cookieAccessToken : Option SignedToken
  bearerToken : Option SignedToken
deriving DecidableEq, Repr

/-- Verify the token and resolve the embedded account id, as the body of
`extractAndVerifyToken` after a token string was obtained: any verification
failure is caught and becomes `none`. -/
def verifyTokenUser (users : List UserRec) (now : Nat) (tok : SignedToken) : Option UserRec :=
  match jwtVerify ACCESS_TOKEN_SECRET now tok with
  | .error _ => none
  | .ok decoded =>
    if decoded.uid = 0 then none
    else findUser users decoded.uid

/-- `extractAndVerifyToken` (authentication.middleware.js lines 11-32): read
the token from the cookie, falling back to the header; return the resolved
account or `none`, never throwing. -/
def extractAndVerifyToken (users : List UserRec) (now : Nat) (req : AuthRequest) :
    Option UserRec :=
  match req.cookieAccessToken <|> req.bearerToken with
  | none => none
  | some tok => verifyTokenUser users now tok

/-- A middleware either lets the request proceed (optionally attaching the
resolved account to the request context) or rejects it. -/
inductive MidOutcome
  | proceed (user : Option UserRec)
  | reject (err : ApiError)
deriving DecidableEq, Repr

/-- `authOptional`: attach the account when present, never reject. -/
def authOptional (users : List UserRec) (now : Nat) (req : AuthRequest) : MidOutcome :=
  .proceed (extractAndVerifyToken users now req)

/-- `requireAuth`: 401 when no account resolves. -/
def requireAuth (users : List UserRec) (now : Nat) (req : AuthRequest) : MidOutcome :=
  match extractAndVerifyToken users now req with
  | none => .reject ⟨401, "Authentication required. Please log in to access this resource."⟩
  | some u => .proceed (some u)

/-- `requireGuest`: 409 when an account resolves. -/
def requireGuest (users : List UserRec) (now : Nat) (req : AuthRequest) : MidOutcome :=
  match extractAndVerifyToken users now req with
  | some _ => .reject ⟨409, "Already authenticated. Please log out first to access this resource."⟩
  | none => .proceed none

theorem requireGuest_of_none (users : List UserRec) (now : Nat) (req : AuthRequest)
    (h : extractAndVerifyToken users now req = none) :
    requireGuest users now req = .proceed none := by
  unfold requireGuest
  rw [h]

theorem requireGuest_of_some (users : List UserRec) (now : Nat) (req : AuthRequest)
    (u : UserRec) (h : extractAndVerifyToken users now req = some u) :
    requireGuest users now req =
      .reject ⟨409, "Already authenticated. Please log out first to access this resource."⟩ := by
  unfold requireGuest
  rw [h]

theorem requireAuth_of_none (users : List UserRec) (now : Nat) (req : AuthRequest)
    (h : extractAndVerifyToken users now req = none) :
    requireAuth users now req =
      .reject ⟨401, "Authentication required. Please log in to access this resource."⟩ := by
  unfold requireAuth
  rw [h]

theorem requireAuth_of_some (users : List UserRec) (now : Nat) (req : AuthRequest)
    (u : UserRec) (h : extractAndVerifyToken users now req = some u) :
    requireAuth users now req = .proceed (some u) := by
  unfold requireAuth
  rw [h]

/-- C3. The three middleware modes: `requireGuest` rejects (with 409) iff an
account resolves from the attached token; `requireAuth` rejects (with 401)
iff none does; `authOptional` never rejects; and the shared
`extractAndVerifyToken` primitive yields `none` whenever the token is
missing, fails verification, carries no usable id, or resolves to no
account. -/
theorem auth_middleware_modes (users : List UserRec) (now : Nat) (req : AuthRequest) :
    ((∃ e, requireGuest users now req = .reject e ∧ e.code = 409) ↔
      (extractAndVerifyToken users now req).isSome = true) ∧
    ((∃ e, requireAuth users now req = .reject e ∧ e.code = 401) ↔
      extractAndVerifyToken users now req = none) ∧
    (∀ e, authOptional users now req ≠ .reject e) ∧
    (∀ u, extractAndVerifyToken users now req = some u →
      requireAuth users now req = .proceed (some u) ∧
      authOptional users now req = .proceed (some u)) ∧
    (∀ tok, (req.cookieAccessToken <|> req.bearerToken) = some tok →
      ((∃ err, jwtVerify ACCESS_TOKEN_SECRET now tok = .error err) ∨ tok.payload.uid = 0 ∨
        findUser users tok.payload.uid = none) →
      extractAndVerifyToken users now req = none) := by
  refine ⟨?_, ?_, ?_, ?_, ?_⟩
  · constructor
    · rintro ⟨e, he, -⟩
      rcases hx : extractAndVerifyToken users now req with _ | u
      · rw [requireGuest_of_none users now req hx] at he
        exact absurd he (by simp)
      · simp [hx]
    · intro hx
      rcases hs : extractAndVerifyToken users now req with _ | u
      · rw [hs] at hx
        simp at hx
      · exact ⟨_, requireGuest_of_some users now req u hs, rfl⟩
  · constructor
    · rintro ⟨e, he, -⟩
      rcases hx : extractAndVerifyToken users now req with _ | u
      · rfl
      · rw [requireAuth_of_some users now req u hx] at he
        exact absurd he (by simp)
    · intro hx
      exact ⟨_, requireAuth_of_none users now req hx, rfl⟩
  · intro e
    simp [authOptional]
  · intro u hu
    exact ⟨requireAuth_of_some users now req u hu, by simp [authOptional, hu]⟩
  · intro tok htok hbad
    unfold extractAndVerifyToken
    rw [htok]
    show verifyTokenUser users now tok = none
    unfold verifyTokenUser
    rcases hjv : jwtVerify ACCESS_TOKEN_SECRET now tok with err | decoded
    · rfl
    · have hdec := jwtVerify_ok_eq _ _ _ _ hjv
      subst hdec
      rcases hbad with ⟨err, herr⟩ | hz | hnf
      · rw [hjv] at herr
        exact absurd herr (by simp)
      · simp [hz]
      · by_cases hz : tok.payload.uid = 0
        · simp [hz]
        · simp [hz, hnf]

/-- C3 witness: with one stored account, a request with a valid cookie token
reaches guest-rejection and auth-success; an empty request is the opposite;
and an expired token extracts to `none`. -/
theorem auth_middleware_modes_witness :
    ((∃ e, requireGuest [c1User] 10 ⟨some (generateAccessToken c1User 5), none⟩ = .reject e ∧
        e.code = 409) ↔
      (extractAndVerifyToken [c1User] 10 ⟨some (generateAccessToken c1User 5), none⟩).isSome =
        true) ∧
    ((∃ e, requireAuth [c1User] 10 (⟨none, none⟩ : AuthRequest) = .reject e ∧ e.code = 401) ↔
      extractAndVerifyToken [c1User] 10 (⟨none, none⟩ : AuthRequest) = none) ∧
    extractAndVerifyToken [c1User] 999999 ⟨some (generateAccessToken c1User 5), none⟩ = none :=
  ⟨(auth_middleware_modes [c1User] 10 ⟨some (generateAccessToken c1User 5), none⟩).1,
   (auth_middleware_modes [c1User] 10 (⟨none, none⟩ : AuthRequest)).2.1,
   (auth_middleware_modes [c1User] 999999
      ⟨some (generateAccessToken c1User 5), none⟩).2.2.2.2
     (generateAccessToken c1User 5) rfl (.inl ⟨.expired, rfl⟩)⟩

/-! ### Subscription model and toggle (subscription controller) -/

structure SubRec where
  id : ObjId
  subscriber : ObjId
  channel : ObjId
deriving DecidableEq, Repr

/-- The subscriptions collection plus the id generator. -/
structure SubState where
  subs : List SubRec
  nextId : ObjId
deriving DecidableEq, Repr

/-- Persistence-layer accesses issued by `toggleSubscription`, in order. -/
inductive SubDbOp
  | findOne (subscriber channel : ObjId)
  | deleteById (i : ObjId)
  | create (subscriber channel : ObjId)
deriving DecidableEq, Repr

structure ToggleOutcome where
  response : Except ApiError (Nat × Bool)
  state : SubState
  dbOps : List SubDbOp
deriving Repr

/-- Body of `toggleSubscription` once `req.user._id` is present: id checks,
self-subscription guard, then find-and-flip. -/
def toggleSubscriptionAuthed (st : SubState) (uid channelId : ObjId) : ToggleOutcome :=
  if uid = 0 then ⟨.error ⟨401, "User not authenticated."⟩, st, []⟩
  else if channelId = 0 then ⟨.error ⟨400, "Invalid or missing channel ID."⟩, st, []⟩
  else if uid = channelId then
    ⟨.error ⟨400, "You cannot subscribe to your own channel."⟩, st, []⟩
  else
    match st.subs.find? (fun r => r.channel = channelId ∧ r.subscriber = uid) with
    | some ex =>
      ⟨.ok (200, false), ⟨st.subs.filter (fun r => ¬r.id = ex.id), st.nextId⟩,
        [.findOne uid channelId, .deleteById ex.id]⟩
    | none =>
      ⟨.ok (201, true), ⟨st.subs ++ [⟨st.nextId, uid, channelId⟩], st.nextId + 1⟩,
        [.findOne uid channelId, .create uid channelId]⟩

/-- `toggleSubscription` (subscription controller lines 58-102). -/
def toggleSubscription (st : SubState) (userId : Option ObjId) (channelId : ObjId) :
    ToggleOutcome :=
  match userId with
  | none => ⟨.error ⟨401, "User not authenticated."⟩, st, []⟩
  | some uid => toggleSubscriptionAuthed st uid channelId

/-- Whether the join record for `(uid, channelId)` exists. -/
def isSubscribed (st : SubState) (uid channelId : ObjId) : Bool :=
  st.subs.any (fun r => r.subscriber = uid ∧ r.channel = channelId)

/-- Well-formedness maintained by the persistence layer: record ids are below
the generator and the unique index guarantees distinct ids and at most one
record per (subscriber, channel) pair. -/
def SubWF (st : SubState) : Prop :=
  (∀ r ∈ st.subs, r.id < st.nextId) ∧
  st.subs.Pairwise (fun a b =>
    a.id ≠ b.id ∧ ¬(a.subscriber = b.subscriber ∧ a.channel = b.channel))

/-- C8. Subscribing to one's own channel: unconditionally 400, with no
database access and no state change. -/
theorem toggle_self_subscription_rejected (st : SubState) (uid : ObjId)
    (h0 : uid ≠ 0) :
    toggleSubscription st (some uid) uid =
      ⟨.error ⟨400, "You cannot subscribe to your own channel."⟩, st, []⟩ := by
  simp [toggleSubscription, toggleSubscriptionAuthed, if_neg h0]

/-- C8 witness at a concrete state and account. -/
theorem toggle_self_subscription_rejected_witness :
    toggleSubscription ⟨[⟨1, 2, 3⟩], 2⟩ (some 3) 3 =
      ⟨.error ⟨400, "You cannot subscribe to your own channel."⟩, ⟨[⟨1, 2, 3⟩], 2⟩, []⟩ :=
  toggle_self_subscription_rejected ⟨[⟨1, 2, 3⟩], 2⟩ 3 (by decide)

/-- The relation guaranteed by the unique (subscriber, channel) index is
symmetric. -/
theorem subRel_symm : Symmetric (fun a b : SubRec =>
    a.id ≠ b.id ∧ ¬(a.subscriber = b.subscriber ∧ a.channel = b.channel)) := by
  rintro a b ⟨h1, h2⟩
  exact ⟨h1.symm, fun hx => h2 ⟨hx.1.symm, hx.2.symm⟩⟩

theorem bool_eq_of_iff {a b : Bool} (h : a = true ↔ b = true) : a = b := by
  cases a <;> cases b <;> simp_all

theorem isSubscribed_iff (st : SubState) (uid cid : ObjId) :
    isSubscribed st uid cid = true ↔ ∃ r ∈ st.subs, r.subscriber = uid ∧ r.channel = cid := by
  simp [isSubscribed]

theorem toggle_found (st : SubState) (uid cid : ObjId) (ex : SubRec)
    (h0 : uid ≠ 0) (hc : cid ≠ 0) (hne : uid ≠ cid)
    (hf : st.subs.find? (fun r => r.channel = cid ∧ r.subscriber = uid) = some ex) :
    toggleSubscription st (some uid) cid =
      ⟨.ok (200, false), ⟨st.subs.filter (fun r => ¬r.id = ex.id), st.nextId⟩,
        [.findOne uid cid, .deleteById ex.id]⟩ := by
  simp only [toggleSubscription, toggleSubscriptionAuthed, if_neg h0, if_neg hc, if_neg hne, hf]

theorem toggle_not_found (st : SubState) (uid cid : ObjId)
    (h0 : uid ≠ 0) (hc : cid ≠ 0) (hne : uid ≠ cid)
    (hf : st.subs.find? (fun r => r.channel = cid ∧ r.subscriber = uid) = none) :
    toggleSubscription st (some uid) cid =
      ⟨.ok (201, true), ⟨st.subs ++ [⟨st.nextId, uid, cid⟩], st.nextId + 1⟩,
        [.findOne uid cid, .create uid cid]⟩ := by
  simp only [toggleSubscription, toggleSubscriptionAuthed, if_neg h0, if_neg hc, if_neg hne, hf]

theorem isSubscribed_false_of_find_none (st : SubState) (uid cid : ObjId)
    (hf : st.subs.find? (fun r => r.channel = cid ∧ r.subscriber = uid) = none) :
    isSubscribed st uid cid = false := by
  cases hb : isSubscribed st uid cid
  · rfl
  · rcases (isSubscribed_iff st uid cid).mp hb with ⟨r, hr, hs2, hc2⟩
    rw [List.find?_eq_none] at hf
    exact absurd (by simp [hs2, hc2]) (hf r hr)

theorem isSubscribed_true_of_find_some (st : SubState) (uid cid : ObjId) (ex : SubRec)
    (hf : st.subs.find? (fun r => r.channel = cid ∧ r.subscriber = uid) = some ex) :
    isSubscribed st uid cid = true := by
  have hmem := List.mem_of_find?_eq_some hf
  have hpex : ex.channel = cid ∧ ex.subscriber = uid := by simpa using List.find?_some hf
  exact (isSubscribed_iff st uid cid).mpr ⟨ex, hmem, hpex.2, hpex.1⟩

/-- Each call flips the (subscriber, channel) pair's state. -/
theorem isSubscribed_after_toggle (st : SubState) (uid cid : ObjId) (hwf : SubWF st)
    (h0 : uid ≠ 0) (hc0 : cid ≠ 0) (hne : uid ≠ cid) :
    isSubscribed (toggleSubscription st (some uid) cid).state uid cid =
      !isSubscribed st uid cid := by
  rcases hf : st.subs.find? (fun r => r.channel = cid ∧ r.subscriber = uid) with _ | ex
  · rw [toggle_not_found st uid cid h0 hc0 hne hf, isSubscribed_false_of_find_none st uid cid hf]
    simp only [Bool.not_false]
    refine (isSubscribed_iff _ uid cid).mpr ⟨⟨st.nextId, uid, cid⟩, ?_, rfl, rfl⟩
    simp
  · have hmem := List.mem_of_find?_eq_some hf
    have hpex : ex.channel = cid ∧ ex.subscriber = uid := by simpa using List.find?_some hf
    rw [toggle_found st uid cid ex h0 hc0 hne hf, isSubscribed_true_of_find_some st uid cid ex hf]
    simp only [Bool.not_true]
    cases hb : isSubscribed ⟨st.subs.filter (fun r => ¬r.id = ex.id), st.nextId⟩ uid cid
    · rfl
    · rcases (isSubscribed_iff _ uid cid).mp hb with ⟨r, hr, hrs, hrc⟩
      rw [List.mem_filter] at hr
      obtain ⟨hrsub, hrid⟩ := hr
      have hrid' : r.id ≠ ex.id := by simpa using hrid
      by_cases hre : r = ex
      · exact absurd (congrArg SubRec.id hre) hrid'
      · have hrel := hwf.2.forall subRel_symm hrsub hmem hre
        exact absurd ⟨hrs.trans hpex.2.symm, hrc.trans hpex.1.symm⟩ hrel.2

/-- A toggle call touches no other (subscriber, channel) pair. -/
theorem isSubscribed_toggle_frame (st : SubState) (uid cid u c : ObjId) (hwf : SubWF st)
    (h0 : uid ≠ 0) (hc0 : cid ≠ 0) (hne : uid ≠ cid) (hdiff : ¬(u = uid ∧ c = cid)) :
    isSubscribed (toggleSubscription st (some uid) cid).state u c = isSubscribed st u c := by
  rcases hf : st.subs.find? (fun r => r.channel = cid ∧ r.subscriber = uid) with _ | ex
  · rw [toggle_not_found st uid cid h0 hc0 hne hf]
    apply bool_eq_of_iff
    rw [isSubscribed_iff, isSubscribed_iff]
    constructor
    · rintro ⟨r, hr, hrs, hrc⟩
      rcases List.mem_append.mp hr with h | h
      · exact ⟨r, h, hrs, hrc⟩
      · simp only [List.mem_singleton] at h
        subst h
        exact absurd ⟨hrs.symm, hrc.symm⟩ hdiff
    · rintro ⟨r, hr, hrs, hrc⟩
      exact ⟨r, List.mem_append.mpr (.inl hr), hrs, hrc⟩
  · have hmem := List.mem_of_find?_eq_some hf
    have hpex : ex.channel = cid ∧ ex.subscriber = uid := by simpa using List.find?_some hf
    rw [toggle_found st uid cid ex h0 hc0 hne hf]
    apply bool_eq_of_iff
    rw [isSubscribed_iff, isSubscribed_iff]
    constructor
    · rintro ⟨r, hr, hrs, hrc⟩
      exact ⟨r, (List.mem_filter.mp hr).1, hrs, hrc⟩
    · rintro ⟨r, hr, hrs, hrc⟩
      have hre : r ≠ ex := by
        intro hcontra
        subst hcontra
        exact hdiff ⟨hrs.symm.trans hpex.2, hrc.symm.trans hpex.1⟩
      have hrel := hwf.2.forall subRel_symm hr hmem hre
      refine ⟨r, List.mem_filter.mpr ⟨hr, ?_⟩, hrs, hrc⟩
      simpa using hrel.1

/-- A toggle call preserves the unique-index well-formedness. -/
theorem toggle_preserves_wf (st : SubState) (uid cid : ObjId) (hwf : SubWF st)
    (h0 : uid ≠ 0) (hc0 : cid ≠ 0) (hne : uid ≠ cid) :
    SubWF (toggleSubscription st (some uid) cid).state := by
  rcases hf : st.subs.find? (fun r => r.channel = cid ∧ r.subscriber = uid) with _ | ex
  · rw [toggle_not_found st uid cid h0 hc0 hne hf]
    constructor
    · intro r hr
      rcases List.mem_append.mp hr with h | h
      · exact Nat.lt_succ_of_lt (hwf.1 r h)
      · simp only [List.mem_singleton] at h
        subst h
        exact Nat.lt_succ_self _
    · rw [List.pairwise_append]
      refine ⟨hwf.2, by simp, ?_⟩
      intro a ha b hb
      simp only [List.mem_singleton] at hb
      subst hb
      refine ⟨Nat.ne_of_lt (hwf.1 a ha), ?_⟩
      rintro ⟨hs, hc⟩
      rw [List.find?_eq_none] at hf
      exact hf a ha (by simp [hs, hc])
  · rw [toggle_found st uid cid ex h0 hc0 hne hf]
    exact ⟨fun r hr => hwf.1 r (List.mem_filter.mp hr).1,
      hwf.2.sublist (List.filter_sublist _)⟩

/-- Iterated toggling of the same (subscriber, channel) pair. -/
def toggleSubIter (uid channelId : ObjId) : Nat → SubState → SubState
  | 0, st => st
  | n + 1, st => toggleSubIter uid channelId n (toggleSubscription st (some uid) channelId).state

theorem toggleSubIter_parity (uid cid : ObjId) (h0 : uid ≠ 0) (hc0 : cid ≠ 0)
    (hne : uid ≠ cid) :
    ∀ (n : Nat) (st : SubState), SubWF st →
      isSubscribed (toggleSubIter uid cid n st) uid cid =
        (decide (n % 2 = 1)).xor (isSubscribed st uid cid)
  | 0, st, _ => by simp [toggleSubIter]
  | n + 1, st, hwf => by
    have hstep := isSubscribed_after_toggle st uid cid hwf h0 hc0 hne
    have hwf' := toggle_preserves_wf st uid cid hwf h0 hc0 hne
    have ih := toggleSubIter_parity uid cid h0 hc0 hne n
      (toggleSubscription st (some uid) cid).state hwf'
    simp only [toggleSubIter]
    rw [ih, hstep]
    rcases Nat.mod_two_eq_zero_or_one n with h2 | h2
    · have h3 : (n + 1) % 2 = 1 := by omega
      simp [h2, h3]
    · have h3 : (n + 1) % 2 = 0 := by omega
      simp [h2, h3, Bool.xor_not]

/-! ### Upload pipeline: publishAVideo (src/controllers/video.controller.js) -/

/-- JS `String.prototype.trim`, modelled on the character list (kept
executable so concrete requests evaluate). -/
def jsTrim (s : String) : String :=
  ⟨((s.data.dropWhile Char.isWhitespace).reverse.dropWhile Char.isWhitespace).reverse⟩

/-- A multipart file staged on local scratch storage by the upload
middleware: its path and the declared MIME type and size. -/
structure StagedFile where
  path : String
  mimetype : String
  size : Nat
deriving DecidableEq, Repr

/-- `req.files` for the video+thumbnail route: one array per field. -/
structure PublishFiles where
  videoFile : List StagedFile
  thumbnail : List StagedFile
deriving DecidableEq, Repr

structure PublishReq where
  title : Option String
  description : Option String
  files : Option PublishFiles
  userId : ObjId
deriving DecidableEq, Repr

/-- Cloudinary upload response (`{url, public_id, duration}`). -/
structure CloudUpload where
  url : String
  publicId : String
  duration : Nat
deriving DecidableEq, Repr

/-- Remote-storage calls, recorded in issue order. -/
inductive CloudEvent
  | upload (path : String)
  | deleteVideo (url : String)
  | deleteImage (url : String)
deriving DecidableEq, Repr

structure VideoRec where
  id : ObjId
  videoFile : String
  thumbnail : String
  owner : ObjId
  title : String
  description : String
  duration : Nat
  views : Nat
  isPublished : Bool
  createdAt : Nat
deriving DecidableEq, Repr

structure VideoState where
  videos : List VideoRec
  nextId : ObjId
deriving DecidableEq, Repr

structure PublishOutcome where
  response : Except ApiError (Nat × VideoRec)
  state : VideoState
  events : List CloudEvent
deriving Repr

/-- JS truthiness of `result?.url` for an `uploadOnCloudinary` result (which
is `null` on failure). -/
def truthyUrl (o : Option CloudUpload) : Bool :=
  match o with
  | none => false
  | some r => ¬r.url = ""

def urlOf (o : Option CloudUpload) : String :=
  match o with
  | none => ""
  | some r => r.url

def durationOf (o : Option CloudUpload) : Nat :=
  match o with
  | none => 0
  | some r => r.duration

/-- Transfer-and-persist tail of `publishAVideo` (lines 178-236): concurrent
uploads, url check with partial-cleanup, `Video.create` with compensating
deletes on failure, refetch with compensating deletes on failure. The
`upload` oracle stands for `uploadOnCloudinary`, `createOk` for the success
of `Video.create` and `findOk` for the success of the refetch. -/
def publishUpload (upload : String → Option CloudUpload) (createOk findOk : Bool)
    (st : VideoState) (req : PublishReq) (v t : StagedFile) (now : Nat) : PublishOutcome :=
  let uv := upload v.path
  let ut := upload t.path
  let ev0 : List CloudEvent := [.upload v.path, .upload t.path]
  if ¬(truthyUrl uv ∧ truthyUrl ut) then
    ⟨.error ⟨500, "File upload failed. Please try again."⟩, st,
      ev0 ++ (if truthyUrl uv then [.deleteVideo (urlOf uv)] else []) ++
        (if truthyUrl ut then [.deleteImage (urlOf ut)] else [])⟩
  else if createOk then
    let rec0 : VideoRec := ⟨st.nextId, urlOf uv, urlOf ut, req.userId,
      jsTrim (req.title.getD ""), jsTrim (req.description.getD ""), durationOf uv, 0, false, now⟩
    let st' : VideoState := ⟨st.videos ++ [rec0], st.nextId + 1⟩
    if findOk then ⟨.ok (201, rec0), st', ev0⟩
    else ⟨.error ⟨500, "Failed to retrieve uploaded video information."⟩, st',
      ev0 ++ [.deleteVideo (urlOf uv), .deleteImage (urlOf ut)]⟩
  else
    ⟨.error ⟨500, "Failed to save video information. Please try again."⟩, st,
      ev0 ++ [.deleteVideo (urlOf uv), .deleteImage (urlOf ut)]⟩

/-- `publishAVideo` (video.controller.js lines 116-236): input validation,
then transfer-and-persist. -/
def publishAVideo (upload : String → Option CloudUpload) (createOk findOk : Bool)
    (st : VideoState) (req : PublishReq) (now : Nat) : PublishOutcome :=
  if jsTrim (req.title.getD "") = "" then
    ⟨.error ⟨400, "Video title is required and cannot be empty."⟩, st, []⟩
  else if jsTrim (req.description.getD "") = "" then
    ⟨.error ⟨400, "Video description is required and cannot be empty."⟩, st, []⟩
  else if (jsTrim (req.title.getD "")).length > 100 then
    ⟨.error ⟨400, "Video title cannot exceed 100 characters."⟩, st, []⟩
  else if (jsTrim (req.description.getD "")).length > 1000 then
    ⟨.error ⟨400, "Video description cannot exceed 1000 characters."⟩, st, []⟩
  else
    match req.files with
    | none => ⟨.error ⟨400, "Video file and thumbnail are required."⟩, st, []⟩
    | some fs =>
      match fs.videoFile, fs.thumbnail with
      | [], _ => ⟨.error ⟨400, "Both video file and thumbnail are required."⟩, st, []⟩
      | _ :: _, [] => ⟨.error ⟨400, "Both video file and thumbnail are required."⟩, st, []⟩
      | v :: _, t :: _ =>
        if v.path = "" ∨ t.path = "" then
          ⟨.error ⟨400, "Video file and thumbnail paths are invalid."⟩, st, []⟩
        else if ¬v.mimetype = "video/mp4" then
          ⟨.error ⟨400, "Video must be in MP4 format."⟩, st, []⟩
        else if v.size > 100 * 1024 * 1024 then
          ⟨.error ⟨400, "Video file size cannot exceed 100MB."⟩, st, []⟩
        else if ¬(t.mimetype ∈ ["image/jpeg", "image/png", "image/jpg"]) then
          ⟨.error ⟨400, "Thumbnail must be a JPEG, JPG, or PNG image."⟩, st, []⟩
        else if t.size > 5 * 1024 * 1024 then
          ⟨.error ⟨400, "Thumbnail size cannot exceed 5MB."⟩, st, []⟩
        else publishUpload upload createOk findOk st req v t now

/-- C2. If `Video.create` fails after both files were transferred, both
remote files are deleted by compensating deletes, the client gets 500, and
no video record is created. -/
theorem publish_persist_failure_compensates (upload : String → Option CloudUpload)
    (findOk : Bool) (st : VideoState) (title desc : String) (userId : ObjId)
    (v t : StagedFile) (vrest trest : List StagedFile) (uv ut : CloudUpload) (now : Nat)
    (ht1 : ¬jsTrim title = "") (ht2 : ¬(jsTrim title).length > 100)
    (hd1 : ¬jsTrim desc = "") (hd2 : ¬(jsTrim desc).length > 1000)
    (hvp : ¬v.path = "") (htp : ¬t.path = "")
    (hvm : v.mimetype = "video/mp4") (hvs : ¬v.size > 100 * 1024 * 1024)
    (htm : t.mimetype ∈ ["image/jpeg", "image/png", "image/jpg"])
    (hts : ¬t.size > 5 * 1024 * 1024)
    (huv : upload v.path = some uv) (huv2 : ¬uv.url = "")
    (hut : upload t.path = some ut) (hut2 : ¬ut.url = "") :
    publishAVideo upload false findOk st
        ⟨some title, some desc, some ⟨v :: vrest, t :: trest⟩, userId⟩ now =
      ⟨.error ⟨500, "Failed to save video information. Please try again."⟩, st,
        [.upload v.path, .upload t.path, .deleteVideo uv.url, .deleteImage ut.url]⟩ := by
  have hvm' : ¬¬v.mimetype = "video/mp4" := fun hc => hc hvm
  have htm' : ¬¬(t.mimetype ∈ ["image/jpeg", "image/png", "image/jpg"]) := fun hc => hc htm
  have hpaths : ¬(v.path = "" ∨ t.path = "") := fun hc => hc.elim hvp htp
  simp only [publishAVideo, Option.getD_some, if_neg ht1, if_neg hd1, if_neg ht2, if_neg hd2,
    if_neg hpaths, if_neg hvm', if_neg hvs, if_neg htm', if_neg hts]
  have hturl : truthyUrl (upload v.path) = true := by
    rw [huv]
    simp [truthyUrl, huv2]
  have hturl2 : truthyUrl (upload t.path) = true := by
    rw [hut]
    simp [truthyUrl, hut2]
  have hok : ¬¬(truthyUrl (upload v.path) = true ∧ truthyUrl (upload t.path) = true) :=
    fun hc => hc ⟨hturl, hturl2⟩
  simp only [publishUpload, if_neg hok, Bool.false_eq_true, if_false]
  have hu1 : urlOf (upload v.path) = uv.url := by rw [huv]; rfl
  have hu2 : urlOf (upload t.path) = ut.url := by rw [hut]; rfl
  rw [hu1, hu2]
  rfl

/-- C2 witness: concrete request where persistence fails after both
transfers succeed. -/
theorem publish_persist_failure_compensates_witness :
    publishAVideo
        (fun p => if p = "v.mp4" then some ⟨"http://v", "pid1", 42⟩
          else if p = "t.jpg" then some ⟨"http://t", "pid2", 0⟩ else none)
        false true ⟨[], 1⟩
        ⟨some "My title", some "My description",
          some ⟨[⟨"v.mp4", "video/mp4", 1000⟩], [⟨"t.jpg", "image/jpeg", 500⟩]⟩, 7⟩ 11 =
      ⟨.error ⟨500, "Failed to save video information. Please try again."⟩, ⟨[], 1⟩,
        [.upload "v.mp4", .upload "t.jpg", .deleteVideo "http://v", .deleteImage "http://t"]⟩ :=
  publish_persist_failure_compensates _ true ⟨[], 1⟩ "My title" "My description" 7
    ⟨"v.mp4", "video/mp4", 1000⟩ ⟨"t.jpg", "image/jpeg", 500⟩ [] []
    ⟨"http://v", "pid1", 42⟩ ⟨"http://t", "pid2", 0⟩ 11
    (by decide) (by decide) (by decide) (by decide) (by decide) (by decide)
    (by decide) (by decide) (by decide) (by decide) rfl (by decide) rfl (by decide)

/-! ### Upload filter (multer middleware) -/

/-- `FILE_SIZE_LIMITS.IMAGE` (src/constants.js). -/
def FILE_SIZE_LIMIT_IMAGE : Nat := 2 * 1024 * 1024

/-- `FILE_SIZE_LIMITS.VIDEO` (src/constants.js). -/
def FILE_SIZE_LIMIT_VIDEO : Nat := 100 * 1024 * 1024

/-! ### deleteVideo (src/controllers/video.controller.js lines 440-480) -/

/-- Like join record (src/models/like.model.js): exactly one of the three
target references is set per record. -/
structure LikeRec where
  id : ObjId
  likedBy : ObjId
  video : Option ObjId
  comment : Option ObjId
  tweet : Option ObjId
deriving DecidableEq, Repr

/-- Comment record (src/models/comment.model.js). -/
structure CommentRec where
  id : ObjId
  content : String
  owner : ObjId
  video : ObjId
deriving DecidableEq, Repr

structure ContentState where
  videos : List VideoRec
  likes : List LikeRec
  comments : List CommentRec
deriving DecidableEq, Repr

structure DeleteVideoOutcome where
  response : Except ApiError ObjId
  state : ContentState
  events : List CloudEvent
deriving Repr

/-- `deleteVideo`: id check, `findOneAndDelete({_id, owner})`, then the
`Like.deleteMany` and `Comment.deleteMany` run BEFORE the not-found check;
remote file deletion happens only on the success path. -/
def deleteVideo (st : ContentState) (userId videoId : ObjId) : DeleteVideoOutcome :=
  if videoId = 0 then ⟨.error ⟨400, "Invalid video ID format."⟩, st, []⟩
  else
    let found := st.videos.find? (fun v => v.id = videoId ∧ v.owner = userId)
    let videos' := match found with
      | some vid => st.videos.filter (fun v => ¬v.id = vid.id)
      | none => st.videos
    let likes' := st.likes.filter (fun l => ¬l.video = some videoId)
    let comments' := st.comments.filter (fun c => ¬c.video = videoId)
    match found with
    | none =>
      ⟨.error ⟨404, "Video not found or you do not have permission to delete it."⟩,
        ⟨videos', likes', comments'⟩, []⟩
    | some vid =>
      ⟨.ok videoId, ⟨videos', likes', comments'⟩,
        [.deleteVideo vid.videoFile, .deleteImage vid.thumbnail]⟩

/-- C9. When delete-video fails with NotFound (video absent or caller not the
owner), every Like and Comment referencing the video id has already been
deleted, while the video collection and remote storage are untouched. -/
theorem delete_video_notfound_still_cascades (st : ContentState) (userId videoId : ObjId)
    (e : ApiError) (h : (deleteVideo st userId videoId).response = .error e)
    (h404 : e.code = 404) :
    (∀ l ∈ (deleteVideo st userId videoId).state.likes, ¬l.video = some videoId) ∧
    (∀ c ∈ (deleteVideo st userId videoId).state.comments, ¬c.video = videoId) ∧
    (deleteVideo st userId videoId).state.likes =
      st.likes.filter (fun l => ¬l.video = some videoId) ∧
    (deleteVideo st userId videoId).state.comments =
      st.comments.filter (fun c => ¬c.video = videoId) ∧
    (deleteVideo st userId videoId).state.videos = st.videos ∧
    (deleteVideo st userId videoId).events = [] := by
  by_cases hv : videoId = 0
  · rw [show (deleteVideo st userId videoId).response = .error ⟨400, "Invalid video ID format."⟩
      by simp [deleteVideo, hv]] at h
    have : e = ⟨400, "Invalid video ID format."⟩ := (Except.error.inj h).symm
    rw [this] at h404
    simp at h404
  · rcases hfound : st.videos.find? (fun v => v.id = videoId ∧ v.owner = userId) with _ | vid
    · have hout : deleteVideo st userId videoId =
          ⟨.error ⟨404, "Video not found or you do not have permission to delete it."⟩,
            ⟨st.videos, st.likes.filter (fun l => ¬l.video = some videoId),
              st.comments.filter (fun c => ¬c.video = videoId)⟩, []⟩ := by
        simp only [deleteVideo, if_neg hv, hfound]
      rw [hout]
      refine ⟨?_, ?_, rfl, rfl, rfl, rfl⟩
      · intro l hl
        have := (List.mem_filter.mp hl).2
        simpa using this
      · intro c hc
        have := (List.mem_filter.mp hc).2
        simpa using this
    · have hout : (deleteVideo st userId videoId).response = .ok videoId := by
        simp only [deleteVideo, if_neg hv, hfound]
      rw [hout] at h
      exact absurd h (by simp)

/-- C9 witness: a video belonging to account 1, deletion attempted by
account 2: 404 yet the like and comment on it are gone. -/
theorem delete_video_notfound_still_cascades_witness :
    (∀ l ∈ (deleteVideo
        ⟨[⟨5, "http://v", "http://t", 1, "T", "D", 3, 0, true, 0⟩],
         [⟨8, 2, some 5, none, none⟩], [⟨9, "hi", 2, 5⟩]⟩ 2 5).state.likes,
      ¬l.video = some 5) ∧
    (∀ c ∈ (deleteVideo
        ⟨[⟨5, "http://v", "http://t", 1, "T", "D", 3, 0, true, 0⟩],
         [⟨8, 2, some 5, none, none⟩], [⟨9, "hi", 2, 5⟩]⟩ 2 5).state.comments,
      ¬c.video = 5) ∧
    (deleteVideo ⟨[⟨5, "http://v", "http://t", 1, "T", "D", 3, 0, true, 0⟩],
        [⟨8, 2, some 5, none, none⟩], [⟨9, "hi", 2, 5⟩]⟩ 2 5).state.likes =
      ([⟨8, 2, some 5, none, none⟩] : List LikeRec).filter (fun l => ¬l.video = some 5) ∧
    (deleteVideo ⟨[⟨5, "http://v", "http://t", 1, "T", "D", 3, 0, true, 0⟩],
        [⟨8, 2, some 5, none, none⟩], [⟨9, "hi", 2, 5⟩]⟩ 2 5).state.comments =
      ([⟨9, "hi", 2, 5⟩] : List CommentRec).filter (fun c => ¬c.video = 5) ∧
    (deleteVideo ⟨[⟨5, "http://v", "http://t", 1, "T", "D", 3, 0, true, 0⟩],
        [⟨8, 2, some 5, none, none⟩], [⟨9, "hi", 2, 5⟩]⟩ 2 5).state.videos =
      [⟨5, "http://v", "http://t", 1, "T", "D", 3, 0, true, 0⟩] ∧
    (deleteVideo ⟨[⟨5, "http://v", "http://t", 1, "T", "D", 3, 0, true, 0⟩],
        [⟨8, 2, some 5, none, none⟩], [⟨9, "hi", 2, 5⟩]⟩ 2 5).events = [] :=
  delete_video_notfound_still_cascades
    ⟨[⟨5, "http://v", "http://t", 1, "T", "D", 3, 0, true, 0⟩],
     [⟨8, 2, some 5, none, none⟩], [⟨9, "hi", 2, 5⟩]⟩ 2 5
    ⟨404, "Video not found or you do not have permission to delete it."⟩ rfl rfl

/-! ### Account deletion cascade (src/controllers/user.controller.js 669-783) -/

structure TweetRec where
  id : ObjId
  content : String
  owner : ObjId
deriving DecidableEq, Repr

structure PlaylistRec where
  id : ObjId
  name : String
  owner : ObjId
  isPublic : Bool
  videos : List ObjId
deriving DecidableEq, Repr

structure AppState where
  users : List UserRec
  videos : List VideoRec
  likes : List LikeRec
  comments : List CommentRec
  tweets : List TweetRec
  playlists : List PlaylistRec
  subs : List SubRec
deriving DecidableEq, Repr

/-- A step of the deletion cascade, in issue order; cloud deletions carry
their url (the code routes video files, thumbnails, avatar and cover all
through `deleteImageFromCloudinary`). -/
inductive CascadeStep
  | remoteVideoFile (url : String)
  | remoteThumbnail (url : String)
  | remoteAvatar (url : String)
  | remoteCover (url : String)
  | likesOnContent
  | likesByUser
  | commentsOnVideos
  | ownComments
  | tweets
  | playlists
  | videos
  | subscriptions
  | account
deriving DecidableEq, Repr

/-- Remote deletions for one owned video (each guarded by JS truthiness). -/
def videoMediaSteps (v : VideoRec) : List CascadeStep :=
  (if ¬v.videoFile = "" then [CascadeStep.remoteVideoFile v.videoFile] else []) ++
    (if ¬v.thumbnail = "" then [CascadeStep.remoteThumbnail v.thumbnail] else [])

/-- Remote deletions for the account's avatar and cover image. -/
def avatarCoverSteps (u : UserRec) : List CascadeStep :=
  (if ¬u.avatar = "" then [CascadeStep.remoteAvatar u.avatar] else []) ++
    (if ¬u.coverImage = "" then [CascadeStep.remoteCover u.coverImage] else [])

/-- The database effect of the nine `deleteMany`/`findByIdAndDelete` steps,
computed from the pre-cascade state exactly as the queries are issued. -/
def cascadeState (st : AppState) (userId : ObjId) : AppState :=
  let userVideoIds := (st.videos.filter (fun v => v.owner = userId)).map VideoRec.id
  let userCommentIds := (st.comments.filter (fun c => c.owner = userId)).map CommentRec.id
  let userTweetIds := (st.tweets.filter (fun t => t.owner = userId)).map TweetRec.id
  { users := st.users.filter (fun u => ¬u.id = userId)
    videos := st.videos.filter (fun v => ¬v.owner = userId)
    likes := (st.likes.filter (fun l =>
        !(l.video.any userVideoIds.contains || l.comment.any userCommentIds.contains ||
          l.tweet.any userTweetIds.contains))).filter (fun l => ¬l.likedBy = userId)
    comments := (st.comments.filter (fun c => !userVideoIds.contains c.video)).filter
      (fun c => ¬c.owner = userId)
    tweets := st.tweets.filter (fun t => ¬t.owner = userId)
    playlists := st.playlists.filter (fun p => ¬p.owner = userId)
    subs := st.subs.filter (fun s => ¬(s.subscriber = userId ∨ s.channel = userId)) }

structure CascadeOutcome where
  response : Except ApiError Unit
  state : AppState
  steps : List CascadeStep
deriving Repr

/-- `deleteUserAccount`: auth/body guards, password re-confirmation, then the
cascade; the step trace follows the statement order of the source. -/
def deleteUserAccount (st : AppState) (userId : ObjId) (password : String) : CascadeOutcome :=
  if userId = 0 then ⟨.error ⟨401, "User not authenticated."⟩, st, []⟩
  else if password = "" then ⟨.error ⟨400, "Password is required to delete account."⟩, st, []⟩
  else
    match findUser st.users userId with
    | none => ⟨.error ⟨404, "User not found."⟩, st, []⟩
    | some user =>
      if ¬isPasswordCorrect user password then
        ⟨.error ⟨401, "Invalid password. Account deletion cancelled."⟩, st, []⟩
      else
        ⟨.ok (), cascadeState st userId,
          ((st.videos.filter (fun v => v.owner = userId)).map videoMediaSteps).flatten ++
            avatarCoverSteps user ++
            [.likesOnContent, .likesByUser, .commentsOnVideos, .ownComments, .tweets,
              .playlists, .videos, .subscriptions, .account]⟩

def isMediaStep : CascadeStep → Bool
  | .remoteVideoFile _ => true
  | .remoteThumbnail _ => true
  | _ => false

def isAvatarCoverStep : CascadeStep → Bool
  | .remoteAvatar _ => true
  | .remoteCover _ => true
  | _ => false

/-- The cascade order asserted by the claim: the content items' remote media
first, then the eight collection deletions, then the avatar/cover remote
files, and the account record last. -/
def claimedCascadeOrder (steps : List CascadeStep) : Prop :=
  ∃ media ac, (∀ x ∈ media, isMediaStep x = true) ∧ (∀ x ∈ ac, isAvatarCoverStep x = true) ∧
    steps = media ++ [CascadeStep.likesOnContent, .likesByUser, .commentsOnVideos,
      .ownComments, .tweets, .playlists, .videos, .subscriptions] ++ ac ++ [.account]

/-- Concrete state for the counterexample: one account with an avatar. -/
def c5State : AppState :=
  ⟨[⟨1, "alice", "a@x.com", "Alice A", bcryptHash "pw", "http://a", "", none⟩],
    [], [], [], [], [], [⟨3, 2, 1⟩]⟩

/-- C5 counterexample: on `c5State` the avatar's remote deletion is issued
before the collection deletions, not between the subscriptions step and the
account step as the claim orders it. -/
theorem cascade_order_counterexample :
    ¬claimedCascadeOrder (deleteUserAccount c5State 1 "pw").steps := by
  have hsteps : (deleteUserAccount c5State 1 "pw").steps =
      [CascadeStep.remoteAvatar "http://a", .likesOnContent, .likesByUser, .commentsOnVideos,
        .ownComments, .tweets, .playlists, .videos, .subscriptions, .account] := rfl
  rintro ⟨media, ac, hmedia, -, heq⟩
  rw [hsteps] at heq
  rcases media with _ | ⟨m, ms⟩
  · simp at heq
  · simp only [List.cons_append, List.cons.injEq] at heq
    obtain ⟨hm, -⟩ := heq
    have hms := hmedia m (List.mem_cons_self m ms)
    rw [← hm] at hms
    simp [isMediaStep] at hms

/-- C5 (amended). Account deletion verifies the password first (401 and no
change on mismatch); on success the cascade runs in the source's order:
owned videos' remote media/thumbnails, then avatar/cover remote files, then
reactions on the account's content/comments/tweets, reactions by the
account, comments on its content, its own comments, tweets, playlists,
content items, subscriptions (either party), finally the Account record. -/
theorem account_deletion_cascade (st : AppState) (userId : ObjId) (password : String)
    (user : UserRec) (hfind : findUser st.users userId = some user)
    (h0 : ¬userId = 0) (hpw : ¬password = "") :
    (isPasswordCorrect user password = false →
      deleteUserAccount st userId password =
        ⟨.error ⟨401, "Invalid password. Account deletion cancelled."⟩, st, []⟩) ∧
    (isPasswordCorrect user password = true →
      deleteUserAccount st userId password =
        ⟨.ok (), cascadeState st userId,
          ((st.videos.filter (fun v => v.owner = userId)).map videoMediaSteps).flatten ++
            avatarCoverSteps user ++
            [.likesOnContent, .likesByUser, .commentsOnVideos, .ownComments, .tweets,
              .playlists, .videos, .subscriptions, .account]⟩ ∧
      findUser (cascadeState st userId).users userId = none) := by
  constructor
  · intro hbad
    have hcond : ¬isPasswordCorrect user password = true := by
      rw [hbad]
      simp
    simp only [deleteUserAccount, if_neg h0, if_neg hpw, hfind, if_pos hcond]
  · intro hgood
    have hcond : ¬¬isPasswordCorrect user password = true := by
      rw [hgood]
      simp
    refine ⟨?_, ?_⟩
    · simp only [deleteUserAccount, if_neg h0, if_neg hpw, hfind, if_neg hcond]
    · rcases hfound : findUser (cascadeState st userId).users userId with _ | u2
      · rfl
      · have hfound2 : List.find? (fun u => decide (u.id = userId))
            (cascadeState st userId).users = some u2 := hfound
        have hmem := List.mem_of_find?_eq_some hfound2
        have hid := List.find?_some hfound2
        have husers : (cascadeState st userId).users =
            st.users.filter (fun u => ¬u.id = userId) := rfl
        rw [husers, List.mem_filter] at hmem
        have h2 := hmem.2
        simp only [decide_eq_true_eq] at hid h2
        exact absurd hid h2

/-- C5 witness: a state where the mismatch branch and the success branch are
both exercised at concrete inputs. -/
theorem account_deletion_cascade_witness :
    (deleteUserAccount c5State 1 "wrong" =
      ⟨.error ⟨401, "Invalid password. Account deletion cancelled."⟩, c5State, []⟩) ∧
    (deleteUserAccount c5State 1 "pw" =
      ⟨.ok (), cascadeState c5State 1,
        ((c5State.videos.filter (fun v => v.owner = 1)).map videoMediaSteps).flatten ++
          avatarCoverSteps ⟨1, "alice", "a@x.com", "Alice A", bcryptHash "pw", "http://a", "",
            none⟩ ++
          [.likesOnContent, .likesByUser, .commentsOnVideos, .ownComments, .tweets,
            .playlists, .videos, .subscriptions, .account]⟩ ∧
      findUser (cascadeState c5State 1).users 1 = none) :=
  ⟨(account_deletion_cascade c5State 1 "wrong"
      ⟨1, "alice", "a@x.com", "Alice A", bcryptHash "pw", "http://a", "", none⟩
      rfl (by decide) (by decide)).1 (by decide),
   (account_deletion_cascade c5State 1 "pw"
      ⟨1, "alice", "a@x.com", "Alice A", bcryptHash "pw", "http://a", "", none⟩
      rfl (by decide) (by decide)).2 (by decide)⟩

/-! ### Video visibility: getAllVideos and getVideoById -/

/-- JS `String.prototype.toLowerCase`, on the character list. -/
def jsToLower (s : String) : String :=
  ⟨s.data.map Char.toLower⟩

def isPrefixOfList : List Char → List Char → Bool
  | [], _ => true
  | _ :: _, [] => false
  | p :: ps, c :: cs => p = c && isPrefixOfList ps cs

def hasInfix (pat : List Char) : List Char → Bool
  | [] => isPrefixOfList pat []
  | c :: cs => isPrefixOfList pat (c :: cs) || hasInfix pat cs

/-- Case-insensitive substring test, the model of
`{$regex: keyword, $options: 'i'}` for a plain keyword. -/
def strContainsCI (s pat : String) : Bool :=
  hasInfix (jsToLower pat).data (jsToLower s).data

/-- The owner fields projected by the `$lookup` pipelines. -/
structure OwnerInfo where
  id : ObjId
  username : String
  fullName : String
  avatar : String
deriving DecidableEq, Repr

def ownerInfoOf (u : UserRec) : OwnerInfo :=
  ⟨u.id, u.username, u.fullName, u.avatar⟩

structure ListQuery where
  page : Nat
  limit : Nat
  keyword : Option String
  sortBy : String
  sortType : String
  userId : Option ObjId
deriving Repr

/-- The `$match` stage built by `getAllVideos`: always `isPublished: true`,
plus the optional owner filter and the keyword regex over title/description. -/
def videoMatches (q : ListQuery) (v : VideoRec) : Bool :=
  v.isPublished &&
    (match q.userId with
      | none => true
      | some uid => v.owner = uid) &&
    (match q.keyword with
      | none => true
      | some k =>
        if k = "" then true
        else strContainsCI v.title (jsTrim k) || strContainsCI v.description (jsTrim k))

def insertLe {α : Type} (le : α → α → Bool) (x : α) : List α → List α
  | [] => [x]
  | y :: ys => if le x y then x :: y :: ys else y :: insertLe le x ys

/-- Insertion sort standing for the `$sort` stage. -/
def sortWith {α : Type} (le : α → α → Bool) : List α → List α
  | [] => []
  | x :: xs => insertLe le x (sortWith le xs)

structure Paginated (α : Type) where
  docs : List α
  totalDocs : Nat
  limit : Nat
  page : Nat
  totalPages : Nat
  hasPrevPage : Bool
  hasNextPage : Bool
  prevPage : Option Nat
  nextPage : Option Nat
deriving Repr

/-- `paginateArray` (src/utils/paginateArray.js). -/
def paginateArray {α : Type} (arr : List α) (page limit : Nat) : Paginated α :=
  let totalDocs := arr.length
  let totalPages := (totalDocs + limit - 1) / limit
  let hasPrevPage : Bool := page > 1
  let hasNextPage : Bool := page < totalPages
  ⟨(arr.drop ((page - 1) * limit)).take limit, totalDocs, limit, page, totalPages,
    hasPrevPage, hasNextPage,
    if page > 1 then some (page - 1) else none,
    if page < totalPages then some (page + 1) else none⟩

/-- `getAllVideos` (video.controller.js lines 19-109): validation, the
published-only match, owner join (`$unwind` drops videos without an owner),
sort, pagination. -/
def getAllVideos (users : List UserRec) (videos : List VideoRec) (q : ListQuery) :
    Except ApiError (Paginated (VideoRec × OwnerInfo)) :=
  if ¬(q.sortBy ∈ ["createdAt", "views", "likesCount"]) then
    .error ⟨400, "Invalid sortBy field. Valid fields are: createdAt, views, likesCount"⟩
  else if ¬(q.sortType ∈ ["asc", "desc"]) then
    .error ⟨400, "sortType must be either \"asc\" or \"desc\"."⟩
  else if q.page < 1 ∨ q.limit < 1 then
    .error ⟨400, "Page and limit must be positive integers."⟩
  else if q.limit > 100 then
    .error ⟨400, "Limit cannot exceed 100 videos per request."⟩
  else if (match q.userId with | some uid => decide (uid = 0) | none => false) then
    .error ⟨400, "Invalid userId format."⟩
  else if (match q.keyword with
      | some k => decide (¬k = "" ∧ jsTrim k = "")
      | none => false) then
    .error ⟨400, "Keyword must be a non-empty string."⟩
  else
    let joined := (videos.filter (videoMatches q)).filterMap
      (fun v => (findUser users v.owner).map (fun u => (v, ownerInfoOf u)))
    let key : VideoRec × OwnerInfo → Nat := fun p =>
      if q.sortBy = "views" then p.1.views
      else if q.sortBy = "createdAt" then p.1.createdAt
      else 0
    let le : VideoRec × OwnerInfo → VideoRec × OwnerInfo → Bool := fun a b =>
      if q.sortType = "desc" then key b ≤ key a else key a ≤ key b
    .ok (paginateArray (sortWith le joined) q.page q.limit)

def findVideo (videos : List VideoRec) (i : ObjId) : Option VideoRec :=
  videos.find? (fun v => v.id = i)

structure VideoView where
  video : VideoRec
  owner : Option OwnerInfo
  likesCount : Nat
  isLikedByUser : Bool
deriving Repr

/-- The aggregation stage of `getVideoById`: match on id (and, unless the
owner relaxed it, `isPublished: true`), join owner and likes, then the
optional view increment. -/
def getVideoAggregate (users : List UserRec) (videos : List VideoRec) (likes : List LikeRec)
    (cu : Option UserRec) (videoId : ObjId) (publishedOnly : Bool) (shouldIncrement : Bool) :
    Except ApiError VideoView × List VideoRec :=
  match videos.find? (fun v => v.id = videoId && (!publishedOnly || v.isPublished)) with
  | none => (.error ⟨404, "Video not found or access denied."⟩, videos)
  | some v =>
    let likesCount := (likes.filter (fun l => l.video = some videoId)).length
    let isLiked := match cu with
      | none => false
      | some u => likes.any (fun l => l.video = some videoId && l.likedBy = u.id)
    let ownerInfo := (findUser users v.owner).map ownerInfoOf
    if shouldIncrement then
      (.ok ⟨{ v with views := v.views + 1 }, ownerInfo, likesCount, isLiked⟩,
        videos.map (fun w => if w.id = videoId then { w with views := w.views + 1 } else w))
    else
      (.ok ⟨v, ownerInfo, likesCount, isLiked⟩, videos)

/-- `getVideoById` (video.controller.js lines 245-342): for an authenticated
caller, a pre-pass loads the video, detects ownership (which relaxes the
published-only restriction and suppresses the view increment). -/
def getVideoById (users : List UserRec) (videos : List VideoRec) (likes : List LikeRec)
    (currentUser : Option UserRec) (videoId : ObjId) :
    Except ApiError VideoView × List VideoRec :=
  if videoId = 0 then (.error ⟨400, "Invalid video ID format."⟩, videos)
  else
    match currentUser with
    | none => getVideoAggregate users videos likes none videoId true false
    | some cu =>
      match findVideo videos videoId with
      | none => (.error ⟨404, "Video not found."⟩, videos)
      | some video =>
        let isOwner : Bool := video.owner = cu.id
        getVideoAggregate users videos likes (some cu) videoId (!isOwner)
          (!isOwner && video.isPublished)

theorem mem_insertLe {α : Type} (le : α → α → Bool) (x a : α) (l : List α) :
    a ∈ insertLe le x l ↔ a = x ∨ a ∈ l := by
  induction l with
  | nil => simp [insertLe]
  | cons y ys ih =>
    simp only [insertLe]
    by_cases h : le x y = true
    · rw [if_pos h]
      simp
    · rw [if_neg h]
      simp only [List.mem_cons, ih]
      tauto

theorem mem_sortWith {α : Type} (le : α → α → Bool) (a : α) (l : List α) :
    a ∈ sortWith le l ↔ a ∈ l := by
  induction l with
  | nil => simp [sortWith]
  | cons x xs ih =>
    simp only [sortWith, mem_insertLe, ih, List.mem_cons]

theorem find?_ext {α : Type} (p q : α → Bool) (l : List α) (h : ∀ a, p a = q a) :
    l.find? p = l.find? q := by
  induction l with
  | nil => rfl
  | cons x xs ih =>
    simp only [List.find?]
    rw [h x]
    cases q x <;> simp [ih]

set_option maxHeartbeats 1600000 in
/-- C6. Unpublished videos are visible only to the owner: the public listing
contains only published videos, and fetching an unpublished video by id
succeeds for the owner but is a 404 for an authenticated non-owner and for
an anonymous caller. -/
theorem unpublished_visible_only_to_owner :
    (∀ (users : List UserRec) (videos : List VideoRec) (q : ListQuery)
        (out : Paginated (VideoRec × OwnerInfo)),
      getAllVideos users videos q = .ok out →
        ∀ p ∈ out.docs, p.1.isPublished = true) ∧
    (∀ (users : List UserRec) (videos : List VideoRec) (likes : List LikeRec)
        (v : VideoRec) (cu : UserRec),
      findVideo videos v.id = some v →
      (∀ w ∈ videos, w.id = v.id → w = v) →
      v.isPublished = false → ¬v.id = 0 →
        (cu.id = v.owner →
          ∃ view, (getVideoById users videos likes (some cu) v.id).1 = .ok view ∧
            view.video = v) ∧
        (¬cu.id = v.owner →
          (getVideoById users videos likes (some cu) v.id).1 =
            .error ⟨404, "Video not found or access denied."⟩) ∧
        ((getVideoById users videos likes none v.id).1 =
          .error ⟨404, "Video not found or access denied."⟩)) := by
  constructor
  · intro users videos q out hok p hp
    have hdocs : ∀ l : List (VideoRec × OwnerInfo), ∀ pg lim,
        p ∈ (paginateArray l pg lim).docs → p ∈ l := by
      intro l pg lim hmem
      exact List.drop_subset _ _ (List.take_subset _ _ hmem)
    simp only [getAllVideos] at hok
    split at hok
    · simp at hok
    · split at hok
      · simp at hok
      · split at hok
        · simp at hok
        · split at hok
          · simp at hok
          · split at hok
            · simp at hok
            · split at hok
              · simp at hok
              · have hout := (Except.ok.inj hok).symm
                rw [hout] at hp
                have hmem := hdocs _ _ _ hp
                rw [mem_sortWith] at hmem
                rcases List.mem_filterMap.mp hmem with ⟨v, hv, hmap⟩
                have hvf := List.mem_filter.mp hv
                have hpub : videoMatches q v = true := by simpa using hvf.2
                have hpv : p.1 = v := by
                  rcases hu : findUser users v.owner with _ | u
                  · rw [hu] at hmap
                    simp at hmap
                  · rw [hu] at hmap
                    have hvp : (v, ownerInfoOf u) = p := by simpa using hmap
                    rw [← hvp]
                rw [hpv]
                simp only [videoMatches, Bool.and_eq_true] at hpub
                exact hpub.1.1
  · intro users videos likes v cu hfind huniq hunpub hid
    have hagg404 : ∀ cu2, getVideoAggregate users videos likes cu2 v.id true false =
        (.error ⟨404, "Video not found or access denied."⟩, videos) := by
      intro cu2
      have hnone : videos.find? (fun w => w.id = v.id && (!true || w.isPublished)) = none := by
        rw [List.find?_eq_none]
        intro w hw hmatch
        simp only [Bool.not_true, Bool.false_or, Bool.and_eq_true, decide_eq_true_eq] at hmatch
        have hwv := huniq w hw hmatch.1
        rw [hwv] at hmatch
        rw [hunpub] at hmatch
        exact absurd hmatch.2 (by simp)
      simp only [getVideoAggregate, hnone]
    refine ⟨?_, ?_, ?_⟩
    · intro hown
      have hiso : (decide (v.owner = cu.id)) = true := by simp [hown]
      have hfagg : videos.find? (fun w => w.id = v.id && (!false || w.isPublished)) =
          some v := by
        rw [find?_ext _ (fun w => w.id = v.id) _ (by intro a; simp)]
        exact hfind
      refine ⟨⟨v, (findUser users v.owner).map ownerInfoOf,
        (likes.filter (fun l => l.video = some v.id)).length,
        likes.any (fun l => l.video = some v.id && l.likedBy = cu.id)⟩, ?_, rfl⟩
      simp only [getVideoById, if_neg hid, hfind, hiso, Bool.not_true, hunpub,
        Bool.and_false, getVideoAggregate, hfagg, Bool.false_and]
      rw [if_neg (by simp)]
    · intro hown
      have hiso : (decide (v.owner = cu.id)) = false := by
        simp only [decide_eq_false_iff_not]
        exact fun hc => hown hc.symm
      simp only [getVideoById, if_neg hid, hfind, hiso, Bool.not_false, hunpub,
        Bool.and_false, Bool.true_and]
      rw [hagg404 (some cu)]
    · simp only [getVideoById, if_neg hid]
      rw [hagg404 none]

/-- C6 witness: one unpublished video of account 1; account 1 sees it,
account 2 and the anonymous caller get 404, and a listing over the same
collection only ever returns published records. -/
theorem unpublished_visible_only_to_owner_witness :
    ((((⟨5, "http://v", "http://t", 1, "T", "D", 3, 0, true, 0⟩ : VideoRec),
        ownerInfoOf c1User)).1.isPublished = true) ∧
    (∃ view, (getVideoById [c1User] [⟨5, "http://v", "http://t", 1, "T", "D", 3, 0, false, 0⟩]
        [] (some c1User) 5).1 = .ok view ∧
      view.video = ⟨5, "http://v", "http://t", 1, "T", "D", 3, 0, false, 0⟩) ∧
    ((getVideoById [c1User] [⟨5, "http://v", "http://t", 1, "T", "D", 3, 0, false, 0⟩]
        [] (some ⟨2, "bob", "b@x.com", "Bob B", "", "", "", none⟩) 5).1 =
      .error ⟨404, "Video not found or access denied."⟩) ∧
    ((getVideoById [c1User] [⟨5, "http://v", "http://t", 1, "T", "D", 3, 0, false, 0⟩]
        [] none 5).1 = .error ⟨404, "Video not found or access denied."⟩) :=
  ⟨(unpublished_visible_only_to_owner.1 [c1User]
      [⟨5, "http://v", "http://t", 1, "T", "D", 3, 0, true, 0⟩]
      ⟨1, 10, none, "createdAt", "desc", none⟩ _ rfl
      (⟨5, "http://v", "http://t", 1, "T", "D", 3, 0, true, 0⟩, ownerInfoOf c1User)
      (by decide)),
   ((unpublished_visible_only_to_owner.2 [c1User]
      [⟨5, "http://v", "http://t", 1, "T", "D", 3, 0, false, 0⟩] []
      ⟨5, "http://v", "http://t", 1, "T", "D", 3, 0, false, 0⟩ c1User rfl
      (by intro w hw hid; simpa using hw) rfl (by decide)).1 rfl),
   ((unpublished_visible_only_to_owner.2 [c1User]
      [⟨5, "http://v", "http://t", 1, "T", "D", 3, 0, false, 0⟩] []
      ⟨5, "http://v", "http://t", 1, "T", "D", 3, 0, false, 0⟩
      ⟨2, "bob", "b@x.com", "Bob B", "", "", "", none⟩ rfl
      (by intro w hw hid; simpa using hw) rfl (by decide)).2.1 (by decide)),
   ((unpublished_visible_only_to_owner.2 [c1User]
      [⟨5, "http://v", "http://t", 1, "T", "D", 3, 0, false, 0⟩] []
      ⟨5, "http://v", "http://t", 1, "T", "D", 3, 0, false, 0⟩ c1User rfl
      (by intro w hw hid; simpa using hw) rfl (by decide)).2.2)⟩

/-! ### Registration (src/controllers/user.controller.js lines 49-153) -/

/-- JS `!field?.trim()` over an optional body field. -/
def fieldFalsy (o : Option String) : Bool :=
  match o with
  | none => true
  | some s => jsTrim s = ""

/-- The email regex `^[^\s@]+@[^\s@]+\.[^\s@]+$`, characterized on the
character list: no whitespace anywhere, exactly one `@`, a nonempty local
part, and a dot strictly inside the domain part. -/
def emailRegexTest (s : String) : Bool :=
  let cs := s.data
  let locPart := cs.takeWhile (fun c => !(c = '@'))
  let domain := (cs.dropWhile (fun c => !(c = '@'))).drop 1
  cs.all (fun c => !c.isWhitespace) && (cs.count '@' == 1) &&
    (!locPart.isEmpty) && ((domain.drop 1).dropLast.contains '.')

/-- The username regex `^[a-zA-Z0-9_]+$`. -/
def usernameRegexTest (s : String) : Bool :=
  !s.data.isEmpty && s.data.all (fun c => c.isAlphanum || c = '_')

def publicIdOf (o : Option CloudUpload) : String :=
  match o with
  | none => ""
  | some r => r.publicId

structure RegisterReq where
  username : Option String
  email : Option String
  fullName : Option String
  password : Option String
  avatarFiles : List StagedFile
  coverFiles : List StagedFile
deriving Repr

structure RegisterOutcome where
  response : Except ApiError UserRec
  users : List UserRec
  events : List CloudEvent
deriving Repr

/-- `User.create` plus the refetch; the schema lowercases username/email (the
controller also lowercases them), trims fullName and hashes the password via
the pre-save hook; refetch failure rolls the record back and deletes the
uploaded files. -/
def userRegisterCreate (st : List UserRec) (nextId : ObjId) (req : RegisterReq)
    (findOk : Bool) (avatar coverImage : Option CloudUpload) (events : List CloudEvent) :
    RegisterOutcome :=
  let newUser : UserRec :=
    ⟨nextId, jsToLower (req.username.getD ""), jsToLower (req.email.getD ""),
      jsTrim (req.fullName.getD ""), bcryptHash (req.password.getD ""),
      urlOf avatar, urlOf coverImage, none⟩
  if findOk then ⟨.ok newUser, st ++ [newUser], events⟩
  else
    ⟨.error ⟨500, "Something went wrong while registering. Please try again."⟩, st,
      events ++
        (match avatar with
          | some a => if ¬a.publicId = "" then [.deleteImage a.publicId] else []
          | none => []) ++
        (match coverImage with
          | some c => if ¬c.publicId = "" then [.deleteImage c.publicId] else []
          | none => [])⟩

/-- Optional cover-image upload; on a failed upload the code issues the
avatar's deletion (unconditionally dereferencing it) plus the cover's if a
public id came back, and answers 500. -/
def userRegisterCover (upload : String → Option CloudUpload) (st : List UserRec)
    (nextId : ObjId) (req : RegisterReq) (findOk : Bool) (avatar : Option CloudUpload)
    (events : List CloudEvent) : RegisterOutcome :=
  match req.coverFiles with
  | [] => userRegisterCreate st nextId req findOk avatar none events
  | f :: _ =>
    if f.path = "" then userRegisterCreate st nextId req findOk avatar none events
    else
      if ¬truthyUrl (upload f.path) then
        ⟨.error ⟨500, "Error uploading cover image."⟩, st,
          (events ++ [.upload f.path]) ++ [.deleteImage (publicIdOf avatar)] ++
            (match upload f.path with
              | some cc => if ¬cc.publicId = "" then [.deleteImage cc.publicId] else []
              | none => [])⟩
      else userRegisterCreate st nextId req findOk avatar (upload f.path)
        (events ++ [.upload f.path])

/-- Optional avatar upload (500 with partial cleanup on failure). -/
def userRegisterAvatar (upload : String → Option CloudUpload) (st : List UserRec)
    (nextId : ObjId) (req : RegisterReq) (findOk : Bool) (events : List CloudEvent) :
    RegisterOutcome :=
  match req.avatarFiles with
  | [] => userRegisterCover upload st nextId req findOk none events
  | f :: _ =>
    if f.path = "" then userRegisterCover upload st nextId req findOk none events
    else
      if ¬truthyUrl (upload f.path) then
        ⟨.error ⟨500, "Error uploading avatar."⟩, st,
          (events ++ [.upload f.path]) ++
            (match upload f.path with
              | some aa => if ¬aa.publicId = "" then [.deleteImage aa.publicId] else []
              | none => [])⟩
      else userRegisterCover upload st nextId req findOk (upload f.path)
        (events ++ [.upload f.path])

/-- `userRegister`: field presence, email/username format, password length,
case-insensitive duplicate check (the query lowercases the inputs; stored
values are lowercase), optional uploads, create. -/
def userRegister (upload : String → Option CloudUpload) (st : List UserRec) (nextId : ObjId)
    (findOk : Bool) (req : RegisterReq) : RegisterOutcome :=
  if fieldFalsy req.username || fieldFalsy req.email || fieldFalsy req.fullName ||
      fieldFalsy req.password then
    ⟨.error ⟨400, "All fields are required."⟩, st, []⟩
  else if ¬emailRegexTest (req.email.getD "") then
    ⟨.error ⟨400, "Please provide a valid email address."⟩, st, []⟩
  else if ¬usernameRegexTest (req.username.getD "") then
    ⟨.error ⟨400, "Username can only contain letters, numbers, and underscores."⟩, st, []⟩
  else if (req.password.getD "").length < 6 then
    ⟨.error ⟨400, "Password must be at least 6 characters long."⟩, st, []⟩
  else if st.any (fun u => u.username = jsToLower (req.username.getD "") ∨
      u.email = jsToLower (req.email.getD "")) then
    ⟨.error ⟨409, "User with same username or email already exists."⟩, st, []⟩
  else userRegisterAvatar upload st nextId req findOk []

theorem userRegisterCreate_ok_shape (st : List UserRec) (nextId : ObjId) (req : RegisterReq)
    (findOk : Bool) (avatar coverImage : Option CloudUpload) (events : List CloudEvent)
    (u : UserRec) (users' : List UserRec) (ev : List CloudEvent)
    (h : userRegisterCreate st nextId req findOk avatar coverImage events =
      ⟨.ok u, users', ev⟩) :
    u.username = jsToLower (req.username.getD "") ∧
    u.email = jsToLower (req.email.getD "") ∧ users' = st ++ [u] := by
  unfold userRegisterCreate at h
  split at h
  · simp only [RegisterOutcome.mk.injEq] at h
    obtain ⟨hok, husers, -⟩ := h
    have hu := Except.ok.inj hok
    rw [← hu]
    exact ⟨rfl, rfl, husers.symm⟩
  · simp only [RegisterOutcome.mk.injEq] at h
    exact absurd h.1 (by simp)

theorem userRegisterCover_ok_shape (upload : String → Option CloudUpload)
    (st : List UserRec) (nextId : ObjId) (req : RegisterReq) (findOk : Bool)
    (avatar : Option CloudUpload) (events : List CloudEvent)
    (u : UserRec) (users' : List UserRec) (ev : List CloudEvent)
    (h : userRegisterCover upload st nextId req findOk avatar events = ⟨.ok u, users', ev⟩) :
    u.username = jsToLower (req.username.getD "") ∧
    u.email = jsToLower (req.email.getD "") ∧ users' = st ++ [u] := by
  unfold userRegisterCover at h
  split at h
  · exact userRegisterCreate_ok_shape _ _ _ _ _ _ _ _ _ _ h
  · split at h
    · exact userRegisterCreate_ok_shape _ _ _ _ _ _ _ _ _ _ h
    · split at h
      · simp only [RegisterOutcome.mk.injEq] at h
        exact absurd h.1 (by simp)
      · exact userRegisterCreate_ok_shape _ _ _ _ _ _ _ _ _ _ h

theorem userRegisterAvatar_ok_shape (upload : String → Option CloudUpload)
    (st : List UserRec) (nextId : ObjId) (req : RegisterReq) (findOk : Bool)
    (events : List CloudEvent) (u : UserRec) (users' : List UserRec) (ev : List CloudEvent)
    (h : userRegisterAvatar upload st nextId req findOk events = ⟨.ok u, users', ev⟩) :
    u.username = jsToLower (req.username.getD "") ∧
    u.email = jsToLower (req.email.getD "") ∧ users' = st ++ [u] := by
  unfold userRegisterAvatar at h
  split at h
  · exact userRegisterCover_ok_shape _ _ _ _ _ _ _ _ _ _ h
  · split at h
    · exact userRegisterCover_ok_shape _ _ _ _ _ _ _ _ _ _ h
    · split at h
      · simp only [RegisterOutcome.mk.injEq] at h
        exact absurd h.1 (by simp)
      · exact userRegisterCover_ok_shape _ _ _ _ _ _ _ _ _ _ h

/-- C10. Registration canonicalizes identity: any successful registration
stores the lowercased handle and email (appending exactly that record), and
with an existing account whose stored (lowercase) handle or email equals the
lowercase of the submitted one, a well-formed registration stops at the
duplicate check with 409 and no change. -/
theorem registration_canonicalizes_identity :
    (∀ (upload : String → Option CloudUpload) (st : List UserRec) (nextId : ObjId)
        (findOk : Bool) (un em fn pw : String) (af cf : List StagedFile) (u : UserRec)
        (users' : List UserRec) (ev : List CloudEvent),
      userRegister upload st nextId findOk ⟨some un, some em, some fn, some pw, af, cf⟩ =
          ⟨.ok u, users', ev⟩ →
        u.username = jsToLower un ∧ u.email = jsToLower em ∧ users' = st ++ [u]) ∧
    (∀ (upload : String → Option CloudUpload) (st : List UserRec) (nextId : ObjId)
        (findOk : Bool) (un em fn pw : String) (af cf : List StagedFile) (a : UserRec),
      a ∈ st → (a.username = jsToLower un ∨ a.email = jsToLower em) →
      fieldFalsy (some un) = false → fieldFalsy (some em) = false →
      fieldFalsy (some fn) = false → fieldFalsy (some pw) = false →
      emailRegexTest em = true → usernameRegexTest un = true → ¬pw.length < 6 →
        userRegister upload st nextId findOk ⟨some un, some em, some fn, some pw, af, cf⟩ =
          ⟨.error ⟨409, "User with same username or email already exists."⟩, st, []⟩) := by
  constructor
  · intro upload st nextId findOk un em fn pw af cf u users' ev h
    unfold userRegister at h
    split at h
    · simp only [RegisterOutcome.mk.injEq] at h
      exact absurd h.1 (by simp)
    · split at h
      · simp only [RegisterOutcome.mk.injEq] at h
        exact absurd h.1 (by simp)
      · split at h
        · simp only [RegisterOutcome.mk.injEq] at h
          exact absurd h.1 (by simp)
        · split at h
          · simp only [RegisterOutcome.mk.injEq] at h
            exact absurd h.1 (by simp)
          · split at h
            · simp only [RegisterOutcome.mk.injEq] at h
              exact absurd h.1 (by simp)
            · exact userRegisterAvatar_ok_shape _ _ _ _ _ _ _ _ _ h
  · intro upload st nextId findOk un em fn pw af cf a hamem hadup hf1 hf2 hf3 hf4 hem hun hlen
    have hcond1 : (fieldFalsy (some un) || fieldFalsy (some em) || fieldFalsy (some fn) ||
        fieldFalsy (some pw)) = false := by
      rw [hf1, hf2, hf3, hf4]
      rfl
    have hany : st.any (fun u => u.username = jsToLower un ∨ u.email = jsToLower em) = true := by
      rw [List.any_eq_true]
      exact ⟨a, hamem, by simpa using hadup⟩
    have hc2 : ¬¬emailRegexTest em = true := fun hc => hc hem
    have hc3 : ¬¬usernameRegexTest un = true := fun hc => hc hun
    simp only [userRegister, Option.getD_some, hcond1, Bool.false_eq_true, if_false,
      if_neg hc2, if_neg hc3, if_neg hlen, if_pos hany]

/-- C10 witness: the record created for fresh mixed-case input, and a 409
for a handle differing from a stored one only by case. -/
theorem registration_canonicalizes_identity_witness :
    ((⟨1, jsToLower "NewUser", jsToLower "N@Y.com", jsTrim "New User",
        bcryptHash "secret1", urlOf none, urlOf none, none⟩ : UserRec).username =
        jsToLower "NewUser" ∧
      (⟨1, jsToLower "NewUser", jsToLower "N@Y.com", jsTrim "New User",
        bcryptHash "secret1", urlOf none, urlOf none, none⟩ : UserRec).email =
        jsToLower "N@Y.com" ∧
      ([] : List UserRec) ++
          [⟨1, jsToLower "NewUser", jsToLower "N@Y.com", jsTrim "New User",
            bcryptHash "secret1", urlOf none, urlOf none, none⟩] =
        ([] : List UserRec) ++
          [⟨1, jsToLower "NewUser", jsToLower "N@Y.com", jsTrim "New User",
            bcryptHash "secret1", urlOf none, urlOf none, none⟩]) ∧
    (userRegister (fun _ => none) [c1User] 2 true
        ⟨some "ALICE", some "x@y.zz", some "Another Alice", some "secret2", [], []⟩ =
      ⟨.error ⟨409, "User with same username or email already exists."⟩, [c1User], []⟩) :=
  ⟨registration_canonicalizes_identity.1 (fun _ => none) [] 1 true
      "NewUser" "N@Y.com" "New User" "secret1" [] [] _ _ _ rfl,
   registration_canonicalizes_identity.2 (fun _ => none) [c1User] 2 true
      "ALICE" "x@y.zz" "Another Alice" "secret2" [] [] c1User (by simp)
      (.inl (by decide)) (by decide) (by decide) (by decide) (by decide)
      (by decide) (by decide) (by decide)⟩

/-! ### Like controller (staged like controller: toggleVideoLike,
toggleCommentLike, toggleTweetLike) -/

theorem xor_parity_step (n : Nat) (b : Bool) :
    (decide (n % 2 = 1)).xor (!b) = (decide ((n + 1) % 2 = 1)).xor b := by
  rcases Nat.mod_two_eq_zero_or_one n with h2 | h2
  · have h3 : (n + 1) % 2 = 1 := by omega
    simp [h2, h3]
  · have h3 : (n + 1) % 2 = 0 := by omega
    simp [h2, h3, Bool.xor_not]

/-- The collections the like controller touches: it reads videos, comments
and tweets for the existence/published guards and mutates only likes. -/
structure LikeCtrlState where
  videos : List VideoRec
  comments : List CommentRec
  tweets : List TweetRec
  likes : List LikeRec
  nextLikeId : ObjId
deriving DecidableEq, Repr

def findComment (comments : List CommentRec) (i : ObjId) : Option CommentRec :=
  comments.find? (fun c => c.id = i)

def findTweet (tweets : List TweetRec) (i : ObjId) : Option TweetRec :=
  tweets.find? (fun t => t.id = i)

/-- `toggleVideoLike`: id check (400), existence check (404), published
check (403), then find-and-flip on the (likedBy, video) pair. -/
def toggleVideoLike (st : LikeCtrlState) (userId videoId : ObjId) :
    Except ApiError (Nat × String) × LikeCtrlState :=
  if videoId = 0 then (.error ⟨400, "Invalid or missing video ID."⟩, st)
  else
    match findVideo st.videos videoId with
    | none => (.error ⟨404, "Video not found."⟩, st)
    | some video =>
      if video.isPublished = false then
        (.error ⟨403, "Cannot like an unpublished video."⟩, st)
      else
        match st.likes.find? (fun l => l.likedBy = userId ∧ l.video = some videoId) with
        | some ex =>
          (.ok (200, "Video disliked successfully."),
            { st with likes := st.likes.filter (fun l => ¬l.id = ex.id) })
        | none =>
          (.ok (201, "Video liked successfully."),
            { st with
              likes := st.likes ++ [⟨st.nextLikeId, userId, some videoId, none, none⟩],
              nextLikeId := st.nextLikeId + 1 })

/-- `toggleCommentLike`: id check (400), existence check (404), then
find-and-flip on the (likedBy, comment) pair. -/
def toggleCommentLike (st : LikeCtrlState) (userId commentId : ObjId) :
    Except ApiError (Nat × String) × LikeCtrlState :=
  if commentId = 0 then (.error ⟨400, "Invalid or missing comment ID."⟩, st)
  else
    match findComment st.comments commentId with
    | none => (.error ⟨404, "Comment not found."⟩, st)
    | some _ =>
      match st.likes.find? (fun l => l.likedBy = userId ∧ l.comment = some commentId) with
      | some ex =>
        (.ok (200, "Comment disliked successfully."),
          { st with likes := st.likes.filter (fun l => ¬l.id = ex.id) })
      | none =>
        (.ok (201, "Comment liked successfully."),
          { st with
            likes := st.likes ++ [⟨st.nextLikeId, userId, none, some commentId, none⟩],
            nextLikeId := st.nextLikeId + 1 })

/-- `toggleTweetLike`: id check (400), existence check (404), then
find-and-flip on the (likedBy, tweet) pair. -/
def toggleTweetLike (st : LikeCtrlState) (userId tweetId : ObjId) :
    Except ApiError (Nat × String) × LikeCtrlState :=
  if tweetId = 0 then (.error ⟨400, "Invalid or missing tweet ID."⟩, st)
  else
    match findTweet st.tweets tweetId with
    | none => (.error ⟨404, "Tweet not found."⟩, st)
    | some _ =>
      match st.likes.find? (fun l => l.likedBy = userId ∧ l.tweet = some tweetId) with
      | some ex =>
        (.ok (200, "Tweet disliked successfully."),
          { st with likes := st.likes.filter (fun l => ¬l.id = ex.id) })
      | none =>
        (.ok (201, "Tweet liked successfully."),
          { st with
            likes := st.likes ++ [⟨st.nextLikeId, userId, none, none, some tweetId⟩],
            nextLikeId := st.nextLikeId + 1 })

def isLikedVideo (st : LikeCtrlState) (uid vid : ObjId) : Bool :=
  st.likes.any (fun l => l.likedBy = uid ∧ l.video = some vid)

def isLikedComment (st : LikeCtrlState) (uid cid : ObjId) : Bool :=
  st.likes.any (fun l => l.likedBy = uid ∧ l.comment = some cid)

def isLikedTweet (st : LikeCtrlState) (uid tid : ObjId) : Bool :=
  st.likes.any (fun l => l.likedBy = uid ∧ l.tweet = some tid)

/-- The invariant the find-before-create discipline maintains: like ids are
below the generator and no two records share a (likedBy, target) pair on the
same target field. -/
def likeRel (a b : LikeRec) : Prop :=
  a.id ≠ b.id ∧
  ¬(a.likedBy = b.likedBy ∧ a.video = b.video ∧ a.video.isSome = true) ∧
  ¬(a.likedBy = b.likedBy ∧ a.comment = b.comment ∧ a.comment.isSome = true) ∧
  ¬(a.likedBy = b.likedBy ∧ a.tweet = b.tweet ∧ a.tweet.isSome = true)

def LikesWF (st : LikeCtrlState) : Prop :=
  (∀ l ∈ st.likes, l.id < st.nextLikeId) ∧ st.likes.Pairwise likeRel

theorem likeRel_symm : Symmetric likeRel := by
  rintro a b ⟨h1, h2, h3, h4⟩
  refine ⟨h1.symm, ?_, ?_, ?_⟩
  · rintro ⟨ha, hb, hc⟩
    exact h2 ⟨ha.symm, hb.symm, by rw [← hb]; exact hc⟩
  · rintro ⟨ha, hb, hc⟩
    exact h3 ⟨ha.symm, hb.symm, by rw [← hb]; exact hc⟩
  · rintro ⟨ha, hb, hc⟩
    exact h4 ⟨ha.symm, hb.symm, by rw [← hb]; exact hc⟩

theorem isLikedVideo_iff (st : LikeCtrlState) (uid vid : ObjId) :
    isLikedVideo st uid vid = true ↔
      ∃ l ∈ st.likes, l.likedBy = uid ∧ l.video = some vid := by
  simp [isLikedVideo]

theorem toggleVideoLike_found (st : LikeCtrlState) (uid vid : ObjId) (video : VideoRec)
    (ex : LikeRec) (h0 : ¬vid = 0) (hfv : findVideo st.videos vid = some video)
    (hpub : video.isPublished = true)
    (hf : st.likes.find? (fun l => l.likedBy = uid ∧ l.video = some vid) = some ex) :
    toggleVideoLike st uid vid = (.ok (200, "Video disliked successfully."),
      { st with likes := st.likes.filter (fun l => ¬l.id = ex.id) }) := by
  have hpub2 : ¬video.isPublished = false := by
    rw [hpub]
    simp
  simp only [toggleVideoLike, if_neg h0, hfv, if_neg hpub2, hf]

theorem toggleVideoLike_not_found (st : LikeCtrlState) (uid vid : ObjId) (video : VideoRec)
    (h0 : ¬vid = 0) (hfv : findVideo st.videos vid = some video)
    (hpub : video.isPublished = true)
    (hf : st.likes.find? (fun l => l.likedBy = uid ∧ l.video = some vid) = none) :
    toggleVideoLike st uid vid = (.ok (201, "Video liked successfully."),
      { st with
        likes := st.likes ++ [⟨st.nextLikeId, uid, some vid, none, none⟩],
        nextLikeId := st.nextLikeId + 1 }) := by
  have hpub2 : ¬video.isPublished = false := by
    rw [hpub]
    simp
  simp only [toggleVideoLike, if_neg h0, hfv, if_neg hpub2, hf]

theorem isLikedVideo_false_of_find_none (st : LikeCtrlState) (uid vid : ObjId)
    (hf : st.likes.find? (fun l => l.likedBy = uid ∧ l.video = some vid) = none) :
    isLikedVideo st uid vid = false := by
  cases hb : isLikedVideo st uid vid
  · rfl
  · rcases (isLikedVideo_iff st uid vid).mp hb with ⟨l, hl, h1, h2⟩
    rw [List.find?_eq_none] at hf
    exact absurd (by simp [h1, h2]) (hf l hl)

theorem isLikedVideo_true_of_find_some (st : LikeCtrlState) (uid vid : ObjId) (ex : LikeRec)
    (hf : st.likes.find? (fun l => l.likedBy = uid ∧ l.video = some vid) = some ex) :
    isLikedVideo st uid vid = true := by
  have hmem := List.mem_of_find?_eq_some hf
  have hp : ex.likedBy = uid ∧ ex.video = some vid := by simpa using List.find?_some hf
  exact (isLikedVideo_iff st uid vid).mpr ⟨ex, hmem, hp.1, hp.2⟩

/-- For an existing published video, each call flips the (likedBy, video)
pair's state. -/
theorem isLikedVideo_after_toggle (st : LikeCtrlState) (uid vid : ObjId) (video : VideoRec)
    (hwf : LikesWF st) (h0 : ¬vid = 0) (hfv : findVideo st.videos vid = some video)
    (hpub : video.isPublished = true) :
    isLikedVideo (toggleVideoLike st uid vid).2 uid vid = !isLikedVideo st uid vid := by
  rcases hf : st.likes.find? (fun l => l.likedBy = uid ∧ l.video = some vid) with _ | ex
  · rw [toggleVideoLike_not_found st uid vid video h0 hfv hpub hf,
      isLikedVideo_false_of_find_none st uid vid hf]
    simp only [Bool.not_false]
    refine (isLikedVideo_iff _ uid vid).mpr
      ⟨⟨st.nextLikeId, uid, some vid, none, none⟩, ?_, rfl, rfl⟩
    simp
  · have hmem := List.mem_of_find?_eq_some hf
    have hpex : ex.likedBy = uid ∧ ex.video = some vid := by simpa using List.find?_some hf
    rw [toggleVideoLike_found st uid vid video ex h0 hfv hpub hf,
      isLikedVideo_true_of_find_some st uid vid ex hf]
    simp only [Bool.not_true]
    cases hb : isLikedVideo { st with likes := st.likes.filter (fun l => ¬l.id = ex.id) } uid vid
    · rfl
    · rcases (isLikedVideo_iff _ uid vid).mp hb with ⟨r, hr, hr1, hr2⟩
      rw [List.mem_filter] at hr
      obtain ⟨hrsub, hrid⟩ := hr
      have hrid2 : r.id ≠ ex.id := by simpa using hrid
      by_cases hre : r = ex
      · exact absurd (congrArg LikeRec.id hre) hrid2
      · have hrel := hwf.2.forall likeRel_symm hrsub hmem hre
        exact absurd ⟨hr1.trans hpex.1.symm, hr2.trans hpex.2.symm, by rw [hr2]; rfl⟩ hrel.2.1

/-- A video-like toggle never changes the videos collection. -/
theorem toggleVideoLike_videos (st : LikeCtrlState) (uid vid : ObjId) :
    (toggleVideoLike st uid vid).2.videos = st.videos := by
  unfold toggleVideoLike
  split
  · rfl
  · split
    · rfl
    · split
      · rfl
      · split
        · rfl
        · rfl

theorem toggleVideoLike_preserves_wf (st : LikeCtrlState) (uid vid : ObjId)
    (hwf : LikesWF st) : LikesWF (toggleVideoLike st uid vid).2 := by
  unfold toggleVideoLike
  split
  · exact hwf
  · split
    · exact hwf
    · split
      · exact hwf
      · split
        · rename_i ex hf
          constructor
          · intro l hl
            exact hwf.1 l (List.mem_filter.mp hl).1
          · exact hwf.2.sublist (List.filter_sublist _)
        · rename_i hf
          constructor
          · intro l hl
            rcases List.mem_append.mp hl with h | h
            · exact Nat.lt_succ_of_lt (hwf.1 l h)
            · simp only [List.mem_singleton] at h
              subst h
              exact Nat.lt_succ_self _
          · rw [List.pairwise_append]
            refine ⟨hwf.2, by simp, ?_⟩
            intro a ha b hb
            simp only [List.mem_singleton] at hb
            subst hb
            refine ⟨Nat.ne_of_lt (hwf.1 a ha), ?_, ?_, ?_⟩
            · rintro ⟨hla, hlv, -⟩
              rw [List.find?_eq_none] at hf
              exact hf a ha (by simp [hla, hlv])
            · rintro ⟨-, hcn, hc⟩
              rw [hcn] at hc
              simp at hc
            · rintro ⟨-, hcn, hc⟩
              rw [hcn] at hc
              simp at hc

/-- Iterated video-like toggling of the same (actor, video) pair. -/
def toggleVideoLikeIter (uid vid : ObjId) : Nat → LikeCtrlState → LikeCtrlState
  | 0, st => st
  | n + 1, st => toggleVideoLikeIter uid vid n (toggleVideoLike st uid vid).2

theorem toggleVideoLikeIter_parity (uid vid : ObjId) (video : VideoRec) (h0 : ¬vid = 0)
    (hpub : video.isPublished = true) :
    ∀ (n : Nat) (st : LikeCtrlState), LikesWF st → findVideo st.videos vid = some video →
      isLikedVideo (toggleVideoLikeIter uid vid n st) uid vid =
        (decide (n % 2 = 1)).xor (isLikedVideo st uid vid)
  | 0, st, _, _ => by simp [toggleVideoLikeIter]
  | n + 1, st, hwf, hfv => by
    have hstep := isLikedVideo_after_toggle st uid vid video hwf h0 hfv hpub
    have hwf2 := toggleVideoLike_preserves_wf st uid vid hwf
    have hfv2 : findVideo (toggleVideoLike st uid vid).2.videos vid = some video := by
      rw [toggleVideoLike_videos]
      exact hfv
    have ih := toggleVideoLikeIter_parity uid vid video h0 hpub n
      (toggleVideoLike st uid vid).2 hwf2 hfv2
    simp only [toggleVideoLikeIter]
    rw [ih, hstep, xor_parity_step]

theorem isLikedComment_iff (st : LikeCtrlState) (uid cid : ObjId) :
    isLikedComment st uid cid = true ↔
      ∃ l ∈ st.likes, l.likedBy = uid ∧ l.comment = some cid := by
  simp [isLikedComment]

theorem toggleCommentLike_found (st : LikeCtrlState) (uid cid : ObjId) (c : CommentRec)
    (ex : LikeRec) (h0 : ¬cid = 0) (hfc : findComment st.comments cid = some c)
    (hf : st.likes.find? (fun l => l.likedBy = uid ∧ l.comment = some cid) = some ex) :
    toggleCommentLike st uid cid = (.ok (200, "Comment disliked successfully."),
      { st with likes := st.likes.filter (fun l => ¬l.id = ex.id) }) := by
  simp only [toggleCommentLike, if_neg h0, hfc, hf]

theorem toggleCommentLike_not_found (st : LikeCtrlState) (uid cid : ObjId) (c : CommentRec)
    (h0 : ¬cid = 0) (hfc : findComment st.comments cid = some c)
    (hf : st.likes.find? (fun l => l.likedBy = uid ∧ l.comment = some cid) = none) :
    toggleCommentLike st uid cid = (.ok (201, "Comment liked successfully."),
      { st with
        likes := st.likes ++ [⟨st.nextLikeId, uid, none, some cid, none⟩],
        nextLikeId := st.nextLikeId + 1 }) := by
  simp only [toggleCommentLike, if_neg h0, hfc, hf]

theorem isLikedComment_false_of_find_none (st : LikeCtrlState) (uid cid : ObjId)
    (hf : st.likes.find? (fun l => l.likedBy = uid ∧ l.comment = some cid) = none) :
    isLikedComment st uid cid = false := by
  cases hb : isLikedComment st uid cid
  · rfl
  · rcases (isLikedComment_iff st uid cid).mp hb with ⟨l, hl, h1, h2⟩
    rw [List.find?_eq_none] at hf
    exact absurd (by simp [h1, h2]) (hf l hl)

theorem isLikedComment_true_of_find_some (st : LikeCtrlState) (uid cid : ObjId) (ex : LikeRec)
    (hf : st.likes.find? (fun l => l.likedBy = uid ∧ l.comment = some cid) = some ex) :
    isLikedComment st uid cid = true := by
  have hmem := List.mem_of_find?_eq_some hf
  have hp : ex.likedBy = uid ∧ ex.comment = some cid := by simpa using List.find?_some hf
  exact (isLikedComment_iff st uid cid).mpr ⟨ex, hmem, hp.1, hp.2⟩

/-- For an existing comment, each call flips the (likedBy, comment) pair's
state. -/
theorem isLikedComment_after_toggle (st : LikeCtrlState) (uid cid : ObjId) (c : CommentRec)
    (hwf : LikesWF st) (h0 : ¬cid = 0) (hfc : findComment st.comments cid = some c) :
    isLikedComment (toggleCommentLike st uid cid).2 uid cid = !isLikedComment st uid cid := by
  rcases hf : st.likes.find? (fun l => l.likedBy = uid ∧ l.comment = some cid) with _ | ex
  · rw [toggleCommentLike_not_found st uid cid c h0 hfc hf,
      isLikedComment_false_of_find_none st uid cid hf]
    simp only [Bool.not_false]
    refine (isLikedComment_iff _ uid cid).mpr
      ⟨⟨st.nextLikeId, uid, none, some cid, none⟩, ?_, rfl, rfl⟩
    simp
  · have hmem := List.mem_of_find?_eq_some hf
    have hpex : ex.likedBy = uid ∧ ex.comment = some cid := by simpa using List.find?_some hf
    rw [toggleCommentLike_found st uid cid c ex h0 hfc hf,
      isLikedComment_true_of_find_some st uid cid ex hf]
    simp only [Bool.not_true]
    cases hb : isLikedComment { st with likes := st.likes.filter (fun l => ¬l.id = ex.id) } uid cid
    · rfl
    · rcases (isLikedComment_iff _ uid cid).mp hb with ⟨r, hr, hr1, hr2⟩
      rw [List.mem_filter] at hr
      obtain ⟨hrsub, hrid⟩ := hr
      have hrid2 : r.id ≠ ex.id := by simpa using hrid
      by_cases hre : r = ex
      · exact absurd (congrArg LikeRec.id hre) hrid2
      · have hrel := hwf.2.forall likeRel_symm hrsub hmem hre
        exact absurd ⟨hr1.trans hpex.1.symm, hr2.trans hpex.2.symm, by rw [hr2]; rfl⟩
          hrel.2.2.1

/-- A comment-like toggle never changes the comments collection. -/
theorem toggleCommentLike_comments (st : LikeCtrlState) (uid cid : ObjId) :
    (toggleCommentLike st uid cid).2.comments = st.comments := by
  unfold toggleCommentLike
  split
  · rfl
  · split
    · rfl
    · split
      · rfl
      · rfl

theorem toggleCommentLike_preserves_wf (st : LikeCtrlState) (uid cid : ObjId)
    (hwf : LikesWF st) : LikesWF (toggleCommentLike st uid cid).2 := by
  unfold toggleCommentLike
  split
  · exact hwf
  · split
    · exact hwf
    · split
      · rename_i ex hf
        constructor
        · intro l hl
          exact hwf.1 l (List.mem_filter.mp hl).1
        · exact hwf.2.sublist (List.filter_sublist _)
      · rename_i hf
        constructor
        · intro l hl
          rcases List.mem_append.mp hl with h | h
          · exact Nat.lt_succ_of_lt (hwf.1 l h)
          · simp only [List.mem_singleton] at h
            subst h
            exact Nat.lt_succ_self _
        · rw [List.pairwise_append]
          refine ⟨hwf.2, by simp, ?_⟩
          intro a ha b hb
          simp only [List.mem_singleton] at hb
          subst hb
          refine ⟨Nat.ne_of_lt (hwf.1 a ha), ?_, ?_, ?_⟩
          · rintro ⟨-, hvn, hv⟩
            rw [hvn] at hv
            simp at hv
          · rintro ⟨hla, hlc, -⟩
            rw [List.find?_eq_none] at hf
            exact hf a ha (by simp [hla, hlc])
          · rintro ⟨-, htn, ht⟩
            rw [htn] at ht
            simp at ht

/-- Iterated comment-like toggling of the same (actor, comment) pair. -/
def toggleCommentLikeIter (uid cid : ObjId) : Nat → LikeCtrlState → LikeCtrlState
  | 0, st => st
  | n + 1, st => toggleCommentLikeIter uid cid n (toggleCommentLike st uid cid).2

theorem toggleCommentLikeIter_parity (uid cid : ObjId) (c : CommentRec) (h0 : ¬cid = 0) :
    ∀ (n : Nat) (st : LikeCtrlState), LikesWF st → findComment st.comments cid = some c →
      isLikedComment (toggleCommentLikeIter uid cid n st) uid cid =
        (decide (n % 2 = 1)).xor (isLikedComment st uid cid)
  | 0, st, _, _ => by simp [toggleCommentLikeIter]
  | n + 1, st, hwf, hfc => by
    have hstep := isLikedComment_after_toggle st uid cid c hwf h0 hfc
    have hwf2 := toggleCommentLike_preserves_wf st uid cid hwf
    have hfc2 : findComment (toggleCommentLike st uid cid).2.comments cid = some c := by
      rw [toggleCommentLike_comments]
      exact hfc
    have ih := toggleCommentLikeIter_parity uid cid c h0 n
      (toggleCommentLike st uid cid).2 hwf2 hfc2
    simp only [toggleCommentLikeIter]
    rw [ih, hstep, xor_parity_step]

theorem isLikedTweet_iff (st : LikeCtrlState) (uid tid : ObjId) :
    isLikedTweet st uid tid = true ↔
      ∃ l ∈ st.likes, l.likedBy = uid ∧ l.tweet = some tid := by
  simp [isLikedTweet]

theorem toggleTweetLike_found (st : LikeCtrlState) (uid tid : ObjId) (t : TweetRec)
    (ex : LikeRec) (h0 : ¬tid = 0) (hft : findTweet st.tweets tid = some t)
    (hf : st.likes.find? (fun l => l.likedBy = uid ∧ l.tweet = some tid) = some ex) :
    toggleTweetLike st uid tid = (.ok (200, "Tweet disliked successfully."),
      { st with likes := st.likes.filter (fun l => ¬l.id = ex.id) }) := by
  simp only [toggleTweetLike, if_neg h0, hft, hf]

theorem toggleTweetLike_not_found (st : LikeCtrlState) (uid tid : ObjId) (t : TweetRec)
    (h0 : ¬tid = 0) (hft : findTweet st.tweets tid = some t)
    (hf : st.likes.find? (fun l => l.likedBy = uid ∧ l.tweet = some tid) = none) :
    toggleTweetLike st uid tid = (.ok (201, "Tweet liked successfully."),
      { st with
        likes := st.likes ++ [⟨st.nextLikeId, uid, none, none, some tid⟩],
        nextLikeId := st.nextLikeId + 1 }) := by
  simp only [toggleTweetLike, if_neg h0, hft, hf]

theorem isLikedTweet_false_of_find_none (st : LikeCtrlState) (uid tid : ObjId)
    (hf : st.likes.find? (fun l => l.likedBy = uid ∧ l.tweet = some tid) = none) :
    isLikedTweet st uid tid = false := by
  cases hb : isLikedTweet st uid tid
  · rfl
  · rcases (isLikedTweet_iff st uid tid).mp hb with ⟨l, hl, h1, h2⟩
    rw [List.find?_eq_none] at hf
    exact absurd (by simp [h1, h2]) (hf l hl)

theorem isLikedTweet_true_of_find_some (st : LikeCtrlState) (uid tid : ObjId) (ex : LikeRec)
    (hf : st.likes.find? (fun l => l.likedBy = uid ∧ l.tweet = some tid) = some ex) :
    isLikedTweet st uid tid = true := by
  have hmem := List.mem_of_find?_eq_some hf
  have hp : ex.likedBy = uid ∧ ex.tweet = some tid := by simpa using List.find?_some hf
  exact (isLikedTweet_iff st uid tid).mpr ⟨ex, hmem, hp.1, hp.2⟩

/-- For an existing tweet, each call flips the (likedBy, tweet) pair's
state. -/
theorem isLikedTweet_after_toggle (st : LikeCtrlState) (uid tid : ObjId) (t : TweetRec)
    (hwf : LikesWF st) (h0 : ¬tid = 0) (hft : findTweet st.tweets tid = some t) :
    isLikedTweet (toggleTweetLike st uid tid).2 uid tid = !isLikedTweet st uid tid := by
  rcases hf : st.likes.find? (fun l => l.likedBy = uid ∧ l.tweet = some tid) with _ | ex
  · rw [toggleTweetLike_not_found st uid tid t h0 hft hf,
      isLikedTweet_false_of_find_none st uid tid hf]
    simp only [Bool.not_false]
    refine (isLikedTweet_iff _ uid tid).mpr
      ⟨⟨st.nextLikeId, uid, none, none, some tid⟩, ?_, rfl, rfl⟩
    simp
  · have hmem := List.mem_of_find?_eq_some hf
    have hpex : ex.likedBy = uid ∧ ex.tweet = some tid := by simpa using List.find?_some hf
    rw [toggleTweetLike_found st uid tid t ex h0 hft hf,
      isLikedTweet_true_of_find_some st uid tid ex hf]
    simp only [Bool.not_true]
    cases hb : isLikedTweet { st with likes := st.likes.filter (fun l => ¬l.id = ex.id) } uid tid
    · rfl
    · rcases (isLikedTweet_iff _ uid tid).mp hb with ⟨r, hr, hr1, hr2⟩
      rw [List.mem_filter] at hr
      obtain ⟨hrsub, hrid⟩ := hr
      have hrid2 : r.id ≠ ex.id := by simpa using hrid
      by_cases hre : r = ex
      · exact absurd (congrArg LikeRec.id hre) hrid2
      · have hrel := hwf.2.forall likeRel_symm hrsub hmem hre
        exact absurd ⟨hr1.trans hpex.1.symm, hr2.trans hpex.2.symm, by rw [hr2]; rfl⟩
          hrel.2.2.2

/-- A tweet-like toggle never changes the tweets collection. -/
theorem toggleTweetLike_tweets (st : LikeCtrlState) (uid tid : ObjId) :
    (toggleTweetLike st uid tid).2.tweets = st.tweets := by
  unfold toggleTweetLike
  split
  · rfl
  · split
    · rfl
    · split
      · rfl
      · rfl

theorem toggleTweetLike_preserves_wf (st : LikeCtrlState) (uid tid : ObjId)
    (hwf : LikesWF st) : LikesWF (toggleTweetLike st uid tid).2 := by
  unfold toggleTweetLike
  split
  · exact hwf
  · split
    · exact hwf
    · split
      · rename_i ex hf
        constructor
        · intro l hl
          exact hwf.1 l (List.mem_filter.mp hl).1
        · exact hwf.2.sublist (List.filter_sublist _)
      · rename_i hf
        constructor
        · intro l hl
          rcases List.mem_append.mp hl with h | h
          · exact Nat.lt_succ_of_lt (hwf.1 l h)
          · simp only [List.mem_singleton] at h
            subst h
            exact Nat.lt_succ_self _
        · rw [List.pairwise_append]
          refine ⟨hwf.2, by simp, ?_⟩
          intro a ha b hb
          simp only [List.mem_singleton] at hb
          subst hb
          refine ⟨Nat.ne_of_lt (hwf.1 a ha), ?_, ?_, ?_⟩
          · rintro ⟨-, hvn, hv⟩
            rw [hvn] at hv
            simp at hv
          · rintro ⟨-, hcn, hc⟩
            rw [hcn] at hc
            simp at hc
          · rintro ⟨hla, hlt, -⟩
            rw [List.find?_eq_none] at hf
            exact hf a ha (by simp [hla, hlt])

/-- Iterated tweet-like toggling of the same (actor, tweet) pair. -/
def toggleTweetLikeIter (uid tid : ObjId) : Nat → LikeCtrlState → LikeCtrlState
  | 0, st => st
  | n + 1, st => toggleTweetLikeIter uid tid n (toggleTweetLike st uid tid).2

theorem toggleTweetLikeIter_parity (uid tid : ObjId) (t : TweetRec) (h0 : ¬tid = 0) :
    ∀ (n : Nat) (st : LikeCtrlState), LikesWF st → findTweet st.tweets tid = some t →
      isLikedTweet (toggleTweetLikeIter uid tid n st) uid tid =
        (decide (n % 2 = 1)).xor (isLikedTweet st uid tid)
  | 0, st, _, _ => by simp [toggleTweetLikeIter]
  | n + 1, st, hwf, hft => by
    have hstep := isLikedTweet_after_toggle st uid tid t hwf h0 hft
    have hwf2 := toggleTweetLike_preserves_wf st uid tid hwf
    have hft2 : findTweet (toggleTweetLike st uid tid).2.tweets tid = some t := by
      rw [toggleTweetLike_tweets]
      exact hft
    have ih := toggleTweetLikeIter_parity uid tid t h0 n
      (toggleTweetLike st uid tid).2 hwf2 hft2
    simp only [toggleTweetLikeIter]
    rw [ih, hstep, xor_parity_step]

/-- Concrete like-controller state: video 5 unpublished, video 6 published,
comment 7 on video 6, tweet 8, no likes yet. -/
def c7LikeState : LikeCtrlState :=
  ⟨[⟨5, "v", "t", 2, "T", "D", 3, 0, false, 0⟩, ⟨6, "v", "t", 2, "T", "D", 3, 0, true, 0⟩],
   [⟨7, "c", 2, 6⟩], [⟨8, "t", 2⟩], [], 1⟩

/-- C7 counterexample: a reaction toggle is not an unconditional flip. On
video 5, which exists but is unpublished, `toggleVideoLike` returns 403 and
leaves the state — and the (actor, video) pair's like state — unchanged, so
the call does not flip the pair. -/
theorem reaction_toggle_unpublished_counterexample :
    toggleVideoLike c7LikeState 1 5 =
      (.error ⟨403, "Cannot like an unpublished video."⟩, c7LikeState) ∧
    (toggleVideoLike c7LikeState 1 5).2 = c7LikeState ∧
    isLikedVideo (toggleVideoLike c7LikeState 1 5).2 1 5 = isLikedVideo c7LikeState 1 5 ∧
    ¬isLikedVideo (toggleVideoLike c7LikeState 1 5).2 1 5 = !isLikedVideo c7LikeState 1 5 := by
  refine ⟨rfl, rfl, rfl, ?_⟩
  intro h
  rw [show isLikedVideo (toggleVideoLike c7LikeState 1 5).2 1 5 = false from rfl,
    show isLikedVideo c7LikeState 1 5 = false from rfl] at h
  simp at h

/-- C7 (amended). The subscription toggle is an idempotent-pair state machine
over {absent, present} for each (subscriber, channel) pair: every call flips
that pair's state and no other, present→absent deletes the join record with
200, absent→present creates it with 201, and n applications have parity
n mod 2. The reaction toggles are the same state machine only behind target
guards: for an existing published video (resp. existing comment, existing
tweet) each call flips the (actor, target) pair with delete-on-present and
create-on-absent semantics and iteration parity, while a missing target
yields 404 and an unpublished video yields 403, each leaving the state
unchanged. -/
theorem toggle_state_machine_with_target_guards :
    (∀ (st : SubState) (uid channelId : ObjId),
      SubWF st → uid ≠ 0 → channelId ≠ 0 → uid ≠ channelId →
        (isSubscribed (toggleSubscription st (some uid) channelId).state uid channelId =
          !isSubscribed st uid channelId) ∧
        (∀ u c, ¬(u = uid ∧ c = channelId) →
          isSubscribed (toggleSubscription st (some uid) channelId).state u c =
            isSubscribed st u c) ∧
        SubWF (toggleSubscription st (some uid) channelId).state ∧
        (isSubscribed st uid channelId = true →
          ∃ ex, st.subs.find? (fun r => r.channel = channelId ∧ r.subscriber = uid) = some ex ∧
            (toggleSubscription st (some uid) channelId).state.subs =
              st.subs.filter (fun r => ¬r.id = ex.id) ∧
            (toggleSubscription st (some uid) channelId).response = .ok (200, false)) ∧
        (isSubscribed st uid channelId = false →
          (toggleSubscription st (some uid) channelId).state.subs =
            st.subs ++ [⟨st.nextId, uid, channelId⟩] ∧
          (toggleSubscription st (some uid) channelId).response = .ok (201, true))) ∧
    (∀ (st : SubState) (uid channelId : ObjId) (n : Nat),
      SubWF st → uid ≠ 0 → channelId ≠ 0 → uid ≠ channelId →
        isSubscribed (toggleSubIter uid channelId n st) uid channelId =
          (decide (n % 2 = 1)).xor (isSubscribed st uid channelId)) ∧
    (∀ (st : LikeCtrlState) (uid vid : ObjId) (video : VideoRec),
      LikesWF st → ¬vid = 0 → findVideo st.videos vid = some video →
        video.isPublished = true →
        (isLikedVideo (toggleVideoLike st uid vid).2 uid vid = !isLikedVideo st uid vid) ∧
        LikesWF (toggleVideoLike st uid vid).2 ∧
        (isLikedVideo st uid vid = true →
          ∃ ex, st.likes.find? (fun l => l.likedBy = uid ∧ l.video = some vid) = some ex ∧
            toggleVideoLike st uid vid = (.ok (200, "Video disliked successfully."),
              { st with likes := st.likes.filter (fun l => ¬l.id = ex.id) })) ∧
        (isLikedVideo st uid vid = false →
          toggleVideoLike st uid vid = (.ok (201, "Video liked successfully."),
            { st with
              likes := st.likes ++ [⟨st.nextLikeId, uid, some vid, none, none⟩],
              nextLikeId := st.nextLikeId + 1 })) ∧
        (∀ n, isLikedVideo (toggleVideoLikeIter uid vid n st) uid vid =
          (decide (n % 2 = 1)).xor (isLikedVideo st uid vid))) ∧
    (∀ (st : LikeCtrlState) (uid vid : ObjId),
      ¬vid = 0 → findVideo st.videos vid = none →
        toggleVideoLike st uid vid = (.error ⟨404, "Video not found."⟩, st)) ∧
    (∀ (st : LikeCtrlState) (uid vid : ObjId) (video : VideoRec),
      ¬vid = 0 → findVideo st.videos vid = some video → video.isPublished = false →
        toggleVideoLike st uid vid = (.error ⟨403, "Cannot like an unpublished video."⟩, st)) ∧
    (∀ (st : LikeCtrlState) (uid cid : ObjId) (c : CommentRec),
      LikesWF st → ¬cid = 0 → findComment st.comments cid = some c →
        (isLikedComment (toggleCommentLike st uid cid).2 uid cid =
          !isLikedComment st uid cid) ∧
        LikesWF (toggleCommentLike st uid cid).2 ∧
        (∀ n, isLikedComment (toggleCommentLikeIter uid cid n st) uid cid =
          (decide (n % 2 = 1)).xor (isLikedComment st uid cid))) ∧
    (∀ (st : LikeCtrlState) (uid cid : ObjId),
      ¬cid = 0 → findComment st.comments cid = none →
        toggleCommentLike st uid cid = (.error ⟨404, "Comment not found."⟩, st)) ∧
    (∀ (st : LikeCtrlState) (uid tid : ObjId) (t : TweetRec),
      LikesWF st → ¬tid = 0 → findTweet st.tweets tid = some t →
        (isLikedTweet (toggleTweetLike st uid tid).2 uid tid = !isLikedTweet st uid tid) ∧
        LikesWF (toggleTweetLike st uid tid).2 ∧
        (∀ n, isLikedTweet (toggleTweetLikeIter uid tid n st) uid tid =
          (decide (n % 2 = 1)).xor (isLikedTweet st uid tid))) ∧
    (∀ (st : LikeCtrlState) (uid tid : ObjId),
      ¬tid = 0 → findTweet st.tweets tid = none →
        toggleTweetLike st uid tid = (.error ⟨404, "Tweet not found."⟩, st)) := by
  refine ⟨?_, ?_, ?_, ?_, ?_, ?_, ?_, ?_, ?_⟩
  · intro st uid channelId hwf h0 hc0 hne
    refine ⟨isSubscribed_after_toggle st uid channelId hwf h0 hc0 hne,
      fun u c hdiff => isSubscribed_toggle_frame st uid channelId u c hwf h0 hc0 hne hdiff,
      toggle_preserves_wf st uid channelId hwf h0 hc0 hne, ?_, ?_⟩
    · intro htrue
      rcases hf : st.subs.find? (fun r => r.channel = channelId ∧ r.subscriber = uid)
        with _ | ex
      · rw [isSubscribed_false_of_find_none st uid channelId hf] at htrue
        exact absurd htrue (by simp)
      · exact ⟨ex, hf, by rw [toggle_found st uid channelId ex h0 hc0 hne hf],
          by rw [toggle_found st uid channelId ex h0 hc0 hne hf]⟩
    · intro hfalse
      rcases hf : st.subs.find? (fun r => r.channel = channelId ∧ r.subscriber = uid)
        with _ | ex
      · exact ⟨by rw [toggle_not_found st uid channelId h0 hc0 hne hf],
          by rw [toggle_not_found st uid channelId h0 hc0 hne hf]⟩
      · rw [isSubscribed_true_of_find_some st uid channelId ex hf] at hfalse
        exact absurd hfalse (by simp)
  · intro st uid channelId n hwf h0 hc0 hne
    exact toggleSubIter_parity uid channelId h0 hc0 hne n st hwf
  · intro st uid vid video hwf h0 hfv hpub
    refine ⟨isLikedVideo_after_toggle st uid vid video hwf h0 hfv hpub,
      toggleVideoLike_preserves_wf st uid vid hwf, ?_, ?_,
      fun n => toggleVideoLikeIter_parity uid vid video h0 hpub n st hwf hfv⟩
    · intro htrue
      rcases hf : st.likes.find? (fun l => l.likedBy = uid ∧ l.video = some vid)
        with _ | ex
      · rw [isLikedVideo_false_of_find_none st uid vid hf] at htrue
        exact absurd htrue (by simp)
      · exact ⟨ex, hf, toggleVideoLike_found st uid vid video ex h0 hfv hpub hf⟩
    · intro hfalse
      rcases hf : st.likes.find? (fun l => l.likedBy = uid ∧ l.video = some vid)
        with _ | ex
      · exact toggleVideoLike_not_found st uid vid video h0 hfv hpub hf
      · rw [isLikedVideo_true_of_find_some st uid vid ex hf] at hfalse
        exact absurd hfalse (by simp)
  · intro st uid vid h0 hnone
    simp only [toggleVideoLike, if_neg h0, hnone]
  · intro st uid vid video h0 hfv hpub
    simp only [toggleVideoLike, if_neg h0, hfv, if_pos hpub]
  · intro st uid cid c hwf h0 hfc
    exact ⟨isLikedComment_after_toggle st uid cid c hwf h0 hfc,
      toggleCommentLike_preserves_wf st uid cid hwf,
      fun n => toggleCommentLikeIter_parity uid cid c h0 n st hwf hfc⟩
  · intro st uid cid h0 hnone
    simp only [toggleCommentLike, if_neg h0, hnone]
  · intro st uid tid t hwf h0 hft
    exact ⟨isLikedTweet_after_toggle st uid tid t hwf h0 hft,
      toggleTweetLike_preserves_wf st uid tid hwf,
      fun n => toggleTweetLikeIter_parity uid tid t h0 n st hwf hft⟩
  · intro st uid tid h0 hnone
    simp only [toggleTweetLike, if_neg h0, hnone]

/-- C7 witness: empty subscription collection, account 1, channel 2; like
state `c7LikeState`, actor 1. One subscription toggle flips the pair, two
restore it; one like toggle on published video 6 flips that pair and three
applications flip it; missing video 9 gives 404, unpublished video 5 gives
403; comment 7 and tweet 8 flip and missing ids 404. -/
theorem toggle_state_machine_with_target_guards_witness :
    (isSubscribed (toggleSubscription ⟨[], 1⟩ (some 1) 2).state 1 2 =
      !isSubscribed ⟨[], 1⟩ 1 2) ∧
    (isSubscribed (toggleSubIter 1 2 2 ⟨[], 1⟩) 1 2 =
      (decide (2 % 2 = 1)).xor (isSubscribed ⟨[], 1⟩ 1 2)) ∧
    (isLikedVideo (toggleVideoLike c7LikeState 1 6).2 1 6 = !isLikedVideo c7LikeState 1 6) ∧
    (isLikedVideo (toggleVideoLikeIter 1 6 3 c7LikeState) 1 6 =
      (decide (3 % 2 = 1)).xor (isLikedVideo c7LikeState 1 6)) ∧
    (toggleVideoLike c7LikeState 1 9 = (.error ⟨404, "Video not found."⟩, c7LikeState)) ∧
    (toggleVideoLike c7LikeState 1 5 =
      (.error ⟨403, "Cannot like an unpublished video."⟩, c7LikeState)) ∧
    (isLikedComment (toggleCommentLike c7LikeState 1 7).2 1 7 =
      !isLikedComment c7LikeState 1 7) ∧
    (toggleCommentLike c7LikeState 1 9 = (.error ⟨404, "Comment not found."⟩, c7LikeState)) ∧
    (isLikedTweet (toggleTweetLike c7LikeState 1 8).2 1 8 = !isLikedTweet c7LikeState 1 8) ∧
    (toggleTweetLike c7LikeState 1 9 = (.error ⟨404, "Tweet not found."⟩, c7LikeState)) :=
  ⟨(toggle_state_machine_with_target_guards.1 ⟨[], 1⟩ 1 2 (by constructor <;> simp)
      (by decide) (by decide) (by decide)).1,
   toggle_state_machine_with_target_guards.2.1 ⟨[], 1⟩ 1 2 2 (by constructor <;> simp)
      (by decide) (by decide) (by decide),
   (toggle_state_machine_with_target_guards.2.2.1 c7LikeState 1 6
      ⟨6, "v", "t", 2, "T", "D", 3, 0, true, 0⟩ (by constructor <;> simp [c7LikeState])
      (by decide) (by rfl) rfl).1,
   (toggle_state_machine_with_target_guards.2.2.1 c7LikeState 1 6
      ⟨6, "v", "t", 2, "T", "D", 3, 0, true, 0⟩ (by constructor <;> simp [c7LikeState])
      (by decide) (by rfl) rfl).2.2.2.2 3,
   toggle_state_machine_with_target_guards.2.2.2.1 c7LikeState 1 9 (by decide) (by rfl),
   toggle_state_machine_with_target_guards.2.2.2.2.1 c7LikeState 1 5
      ⟨5, "v", "t", 2, "T", "D", 3, 0, false, 0⟩ (by decide) (by rfl) rfl,
   (toggle_state_machine_with_target_guards.2.2.2.2.2.1 c7LikeState 1 7 ⟨7, "c", 2, 6⟩
      (by constructor <;> simp [c7LikeState]) (by decide) (by rfl)).1,
   toggle_state_machine_with_target_guards.2.2.2.2.2.2.1 c7LikeState 1 9
      (by decide) (by rfl),
   (toggle_state_machine_with_target_guards.2.2.2.2.2.2.2.1 c7LikeState 1 8 ⟨8, "t", 2⟩
      (by constructor <;> simp [c7LikeState]) (by decide) (by rfl)).1,
   toggle_state_machine_with_target_guards.2.2.2.2.2.2.2.2 c7LikeState 1 9
      (by decide) (by rfl)⟩

/-! ### Multer middleware (staged multer.middleware.js) and the upload routes.
`handleMulterError` exists in the staged middleware but is mounted on no
route, so multer and file-filter errors fall through to the app-level
handler (`error.status || 500`), which answers 500 and, outside
development, the message "Internal Server Error". -/

def allowedImageTypes : List String :=
  ["image/jpeg", "image/jpg", "image/png", "image/gif", "image/webp"]

def allowedVideoTypes : List String :=
  ["video/mp4", "video/avi", "video/mkv", "video/mov", "video/wmv"]

/-- `imageFileFilter` (the falsy-metadata guard is the mimetype check). -/
def imageFileFilter (f : StagedFile) : Except String Unit :=
  if f.mimetype = "" then .error "Invalid file format"
  else if allowedImageTypes.contains f.mimetype then .ok ()
  else .error "Only image files (JPEG, PNG, GIF, WebP) are allowed"

/-- The field-specific fileFilter of `uploadVideoWithThumbnail`. -/
def videoThumbFieldFilter (field : String) (f : StagedFile) : Except String Unit :=
  if f.mimetype = "" then .error "Invalid file format"
  else if field = "videoFile" then
    if allowedVideoTypes.contains f.mimetype then .ok ()
    else .error "Video file must be MP4, AVI, MKV, MOV, or WMV"
  else if field = "thumbnail" then
    if allowedImageTypes.contains f.mimetype then .ok ()
    else .error "Thumbnail must be JPEG, PNG, GIF, or WebP"
  else .error ("Invalid field name: " ++ field ++ ". Only videoFile and thumbnail are allowed")

inductive MulterError where
  | limitFileSize (field : String)
  | limitUnexpectedFile (field : String)
  | filterRejected (msg : String)
deriving DecidableEq, Repr

/-- Multer's processing of one `.fields` entry with maxCount 1: the
fileFilter decides acceptance, `limits.fileSize` rejects an accepted file
over the cap (LIMIT_FILE_SIZE), and a second file on the field exceeds
maxCount (LIMIT_UNEXPECTED_FILE). -/
def multerFieldScan (fil : StagedFile → Except String Unit) (cap : Nat) (field : String) :
    List StagedFile → Option MulterError
  | [] => none
  | [f] =>
    match fil f with
    | .error m => some (.filterRejected m)
    | .ok _ => if f.size > cap then some (.limitFileSize field) else none
  | _ :: _ :: _ => some (.limitUnexpectedFile field)

/-- `uploadVideoWithThumbnail.fields([videoFile, thumbnail])`: the
field-specific filter, but `limits.fileSize` is the 100MB video cap for
BOTH fields. -/
def runMulterVideoThumb (fs : PublishFiles) : Option MulterError :=
  match multerFieldScan (videoThumbFieldFilter "videoFile") FILE_SIZE_LIMIT_VIDEO
      "videoFile" fs.videoFile with
  | some e => some e
  | none =>
    multerFieldScan (videoThumbFieldFilter "thumbnail") FILE_SIZE_LIMIT_VIDEO
      "thumbnail" fs.thumbnail

/-- `uploadImages.fields([avatar, coverImage])`: image filter, 2MB cap. -/
def runMulterImages (av cov : List StagedFile) : Option MulterError :=
  match multerFieldScan imageFileFilter FILE_SIZE_LIMIT_IMAGE "avatar" av with
  | some e => some e
  | none => multerFieldScan imageFileFilter FILE_SIZE_LIMIT_IMAGE "coverImage" cov

/-- The app.js global error handler: neither a MulterError nor a filter
Error carries `.status`, so `error.status || 500` answers 500 and the
non-development message is "Internal Server Error". -/
def globalHandlerResponse (_ : MulterError) : ApiError :=
  ⟨500, "Internal Server Error"⟩

def validateThumbnailSize (fs : PublishFiles) : Except ApiError Unit :=
  match fs.thumbnail.head? with
  | some tf =>
    if tf.size > FILE_SIZE_LIMIT_IMAGE then
      .error ⟨400, "Thumbnail file size cannot exceed 2MB"⟩
    else .ok ()
  | none => .ok ()

/-- `validateFieldSpecificSizes`: the only 400-producing size check (it is
wrapped in asyncHandler, which answers `error.statusCode`). -/
def validateFieldSpecificSizes (files : Option PublishFiles) : Except ApiError Unit :=
  match files with
  | none => .ok ()
  | some fs =>
    match fs.videoFile.head? with
    | some vf =>
      if vf.size > FILE_SIZE_LIMIT_VIDEO then
        .error ⟨400, "Video file size cannot exceed 100MB"⟩
      else validateThumbnailSize fs
    | none => validateThumbnailSize fs

/-- POST /videos: `uploadVideoWithThumbnail.fields(...)`, then
`validateFieldSpecificSizes`, then `publishAVideo` (requireAuth and
autoCleanupTemp omitted: the first is C3's subject, the second only touches
temp files). -/
def publishRoute (upload : String → Option CloudUpload) (createOk findOk : Bool)
    (st : VideoState) (req : PublishReq) (now : Nat) : PublishOutcome :=
  match req.files with
  | none => publishAVideo upload createOk findOk st req now
  | some fs =>
    match runMulterVideoThumb fs with
    | some e => ⟨.error (globalHandlerResponse e), st, []⟩
    | none =>
      match validateFieldSpecificSizes (some fs) with
      | .error err => ⟨.error err, st, []⟩
      | .ok _ => publishAVideo upload createOk findOk st req now

/-- POST /users/register: `uploadImages.fields([avatar, coverImage])`, then
`userRegister` (requireGuest omitted; no size validator is mounted here). -/
def registerRoute (upload : String → Option CloudUpload) (st : List UserRec) (nextId : ObjId)
    (findOk : Bool) (req : RegisterReq) : RegisterOutcome :=
  match runMulterImages req.avatarFiles req.coverFiles with
  | some e => ⟨.error (globalHandlerResponse e), st, []⟩
  | none => userRegister upload st nextId findOk req

/-- A file violating the claim's image-field rule (kind or 2MB size). -/
def violatesImageField (f : StagedFile) : Bool :=
  !allowedImageTypes.contains f.mimetype || decide (f.size > FILE_SIZE_LIMIT_IMAGE)

/-- A file violating the claim's video-field rule (kind or 100MB size). -/
def violatesVideoField (f : StagedFile) : Bool :=
  !allowedVideoTypes.contains f.mimetype || decide (f.size > FILE_SIZE_LIMIT_VIDEO)

theorem imageFileFilter_ok_mime (f : StagedFile) (h : imageFileFilter f = .ok ()) :
    allowedImageTypes.contains f.mimetype = true := by
  unfold imageFileFilter at h
  split at h
  · exact absurd h (by simp)
  · split at h
    · assumption
    · exact absurd h (by simp)

theorem videoThumbFilter_video_ok (f : StagedFile)
    (h : videoThumbFieldFilter "videoFile" f = .ok ()) :
    allowedVideoTypes.contains f.mimetype = true := by
  unfold videoThumbFieldFilter at h
  split at h
  · exact absurd h (by simp)
  · split at h
    · split at h
      · assumption
      · exact absurd h (by simp)
    · rename_i hne
      exact absurd rfl hne

theorem videoThumbFilter_thumb_ok (f : StagedFile)
    (h : videoThumbFieldFilter "thumbnail" f = .ok ()) :
    allowedImageTypes.contains f.mimetype = true := by
  unfold videoThumbFieldFilter at h
  split at h
  · exact absurd h (by simp)
  · split at h
    · rename_i heq
      exact absurd heq (by decide)
    · split at h
      · split at h
        · assumption
        · exact absurd h (by simp)
      · rename_i hne
        exact absurd rfl hne

theorem multerFieldScan_none (fil : StagedFile → Except String Unit) (cap : Nat)
    (field : String) (files : List StagedFile)
    (h : multerFieldScan fil cap field files = none) :
    files = [] ∨ ∃ f, files = [f] ∧ fil f = .ok () ∧ ¬f.size > cap := by
  match files with
  | [] => exact .inl rfl
  | [f] =>
    simp only [multerFieldScan] at h
    rcases hf : fil f with m | u
    · rw [hf] at h
      exact absurd h (by simp)
    · cases u
      rw [hf] at h
      refine .inr ⟨f, rfl, hf, ?_⟩
      intro hgt
      rw [if_pos hgt] at h
      exact absurd h (by simp)
  | f :: g :: rest =>
    simp only [multerFieldScan] at h
    exact absurd h (by simp)

theorem runMulterVideoThumb_none (fs : PublishFiles)
    (h : runMulterVideoThumb fs = none) :
    multerFieldScan (videoThumbFieldFilter "videoFile") FILE_SIZE_LIMIT_VIDEO
      "videoFile" fs.videoFile = none ∧
    multerFieldScan (videoThumbFieldFilter "thumbnail") FILE_SIZE_LIMIT_VIDEO
      "thumbnail" fs.thumbnail = none := by
  unfold runMulterVideoThumb at h
  rcases h1 : multerFieldScan (videoThumbFieldFilter "videoFile") FILE_SIZE_LIMIT_VIDEO
      "videoFile" fs.videoFile with _ | e
  · rw [h1] at h
    exact ⟨rfl, h⟩
  · rw [h1] at h
    exact absurd h (by simp)

theorem runMulterImages_none (av cov : List StagedFile)
    (h : runMulterImages av cov = none) :
    multerFieldScan imageFileFilter FILE_SIZE_LIMIT_IMAGE "avatar" av = none ∧
    multerFieldScan imageFileFilter FILE_SIZE_LIMIT_IMAGE "coverImage" cov = none := by
  unfold runMulterImages at h
  rcases h1 : multerFieldScan imageFileFilter FILE_SIZE_LIMIT_IMAGE "avatar" av with _ | e
  · rw [h1] at h
    exact ⟨rfl, h⟩
  · rw [h1] at h
    exact absurd h (by simp)

theorem validateThumbnailSize_error_code (fs : PublishFiles) (err : ApiError)
    (h : validateThumbnailSize fs = .error err) : err.code = 400 := by
  unfold validateThumbnailSize at h
  split at h
  · split at h
    · simp only [Except.error.injEq] at h
      rw [← h]
    · exact absurd h (by simp)
  · exact absurd h (by simp)

theorem validateFieldSpecificSizes_error_code (files : Option PublishFiles) (err : ApiError)
    (h : validateFieldSpecificSizes files = .error err) : err.code = 400 := by
  unfold validateFieldSpecificSizes at h
  split at h
  · exact absurd h (by simp)
  · split at h
    · split at h
      · simp only [Except.error.injEq] at h
        rw [← h]
      · exact validateThumbnailSize_error_code _ err h
    · exact validateThumbnailSize_error_code _ err h

def c4Avatar : StagedFile := ⟨"/tmp/a.jpg", "image/jpeg", 3 * 1024 * 1024⟩

def c4Req : RegisterReq :=
  ⟨some "charlie", some "c@d.ee", some "Charlie C", some "secret1", [c4Avatar], []⟩

/-- C4 counterexample: a 3MB JPEG avatar on the register route violates its
field's 2MB limit, but the rejection is not a 400: multer's LIMIT_FILE_SIZE
error reaches the app-level handler (no route mounts `handleMulterError`)
and the response is 500 "Internal Server Error". -/
theorem upload_oversize_image_counterexample :
    violatesImageField c4Avatar = true ∧
    registerRoute (fun _ => none) [] 1 true c4Req =
      ⟨.error ⟨500, "Internal Server Error"⟩, [], []⟩ ∧
    ¬∃ e : ApiError, e.code = 400 ∧
      (registerRoute (fun _ => none) [] 1 true c4Req).response = .error e := by
  refine ⟨by decide, rfl, ?_⟩
  rintro ⟨e, hc, he⟩
  rw [show (registerRoute (fun _ => none) [] 1 true c4Req).response =
    Except.error ⟨500, "Internal Server Error"⟩ from rfl] at he
  simp only [Except.error.injEq] at he
  rw [← he] at hc
  exact absurd hc (by decide)

/-- C4 (amended). Every uploaded file is validated against its declared
field's MIME kind and size cap before the controller runs — so before any
remote upload call (the outcome's event trace is empty and the state
unchanged) — but the rejection status is 500, not 400, for every violation
multer itself detects (wrong MIME type on any field, avatar/coverImage over
2MB, publish files over 100MB), because no route mounts `handleMulterError`
and the app-level handler answers `error.status || 500`; the only 400 size
rejection is `validateFieldSpecificSizes` on the publish route, for a
thumbnail over 2MB but within multer's 100MB cap. -/
theorem upload_validation_rejects_before_remote :
    (∀ (upload : String → Option CloudUpload) (createOk findOk : Bool) (st : VideoState)
        (title desc : Option String) (uid : ObjId) (now : Nat) (fs : PublishFiles)
        (e : MulterError),
      runMulterVideoThumb fs = some e →
        publishRoute upload createOk findOk st ⟨title, desc, some fs, uid⟩ now =
          ⟨.error ⟨500, "Internal Server Error"⟩, st, []⟩) ∧
    (∀ (upload : String → Option CloudUpload) (createOk findOk : Bool) (st : VideoState)
        (title desc : Option String) (uid : ObjId) (now : Nat) (fs : PublishFiles)
        (err : ApiError),
      runMulterVideoThumb fs = none →
      validateFieldSpecificSizes (some fs) = .error err →
        err.code = 400 ∧
        publishRoute upload createOk findOk st ⟨title, desc, some fs, uid⟩ now =
          ⟨.error err, st, []⟩) ∧
    (∀ (upload : String → Option CloudUpload) (createOk findOk : Bool) (st : VideoState)
        (title desc : Option String) (uid : ObjId) (now : Nat) (vf tf : StagedFile),
      violatesVideoField vf = true ∨ violatesImageField tf = true →
        ∃ e : ApiError, (e.code = 400 ∨ e.code = 500) ∧
          publishRoute upload createOk findOk st ⟨title, desc, some ⟨[vf], [tf]⟩, uid⟩ now =
            ⟨.error e, st, []⟩) ∧
    (∀ (upload : String → Option CloudUpload) (st : List UserRec) (nextId : ObjId)
        (findOk : Bool) (req : RegisterReq) (f : StagedFile),
      f ∈ req.avatarFiles ∨ f ∈ req.coverFiles → violatesImageField f = true →
        registerRoute upload st nextId findOk req =
          ⟨.error ⟨500, "Internal Server Error"⟩, st, []⟩) := by
  refine ⟨?_, ?_, ?_, ?_⟩
  · intro upload createOk findOk st title desc uid now fs e hm
    simp only [publishRoute, hm, globalHandlerResponse]
  · intro upload createOk findOk st title desc uid now fs err hm hv
    refine ⟨validateFieldSpecificSizes_error_code (some fs) err hv, ?_⟩
    simp only [publishRoute, hm, hv]
  · intro upload createOk findOk st title desc uid now vf tf hviol
    rcases hm : runMulterVideoThumb ⟨[vf], [tf]⟩ with _ | e
    · obtain ⟨h1, h2⟩ := runMulterVideoThumb_none ⟨[vf], [tf]⟩ hm
      have h1' : multerFieldScan (videoThumbFieldFilter "videoFile") FILE_SIZE_LIMIT_VIDEO
          "videoFile" [vf] = none := h1
      have h2' : multerFieldScan (videoThumbFieldFilter "thumbnail") FILE_SIZE_LIMIT_VIDEO
          "thumbnail" [tf] = none := h2
      rcases multerFieldScan_none _ _ _ _ h1' with hnil | ⟨f, hfe, hfilV, hsizeV⟩
      · exact absurd hnil (by simp)
      · injection hfe with hfv _
        subst hfv
        rcases multerFieldScan_none _ _ _ _ h2' with hnil | ⟨g, hge, hfilT, hsizeT⟩
        · exact absurd hnil (by simp)
        · injection hge with hgt _
          subst hgt
          have hvmime := videoThumbFilter_video_ok vf hfilV
          have hvv : violatesVideoField vf = false := by
            unfold violatesVideoField
            rw [hvmime, decide_eq_false hsizeV]
            rfl
          rcases hviol with hv | hv
          · rw [hvv] at hv
            exact absurd hv (by simp)
          · have htmime := videoThumbFilter_thumb_ok tf hfilT
            have hts : tf.size > FILE_SIZE_LIMIT_IMAGE := by
              unfold violatesImageField at hv
              rw [htmime] at hv
              simp only [Bool.not_true, Bool.false_or, decide_eq_true_eq] at hv
              exact hv
            have hval : validateFieldSpecificSizes (some ⟨[vf], [tf]⟩) =
                .error ⟨400, "Thumbnail file size cannot exceed 2MB"⟩ := by
              simp only [validateFieldSpecificSizes, validateThumbnailSize, List.head?_cons]
              rw [if_neg hsizeV, if_pos hts]
            refine ⟨⟨400, "Thumbnail file size cannot exceed 2MB"⟩, .inl rfl, ?_⟩
            simp only [publishRoute, hm, hval]
    · refine ⟨⟨500, "Internal Server Error"⟩, .inr rfl, ?_⟩
      simp only [publishRoute, hm, globalHandlerResponse]
  · intro upload st nextId findOk req f hmem hviol
    rcases hscan : runMulterImages req.avatarFiles req.coverFiles with _ | e
    · exfalso
      obtain ⟨h1, h2⟩ := runMulterImages_none _ _ hscan
      have hstep : ∀ (field : String) (files : List StagedFile),
          multerFieldScan imageFileFilter FILE_SIZE_LIMIT_IMAGE field files = none →
          f ∈ files → False := by
        intro field files hnone hmemf
        rcases multerFieldScan_none _ _ _ _ hnone with hnil | ⟨g, hge, hgfil, hgsize⟩
        · rw [hnil] at hmemf
          exact absurd hmemf (by simp)
        · rw [hge] at hmemf
          simp only [List.mem_singleton] at hmemf
          subst hmemf
          have hmime := imageFileFilter_ok_mime f hgfil
          unfold violatesImageField at hviol
          rw [hmime, decide_eq_false hgsize] at hviol
          simp at hviol
      rcases hmem with hmem | hmem
      · exact hstep "avatar" req.avatarFiles h1 hmem
      · exact hstep "coverImage" req.coverFiles h2 hmem
    · simp only [registerRoute, hscan, globalHandlerResponse]

def c4St : VideoState := ⟨[], 1⟩

def c4BadVideo : StagedFile := ⟨"/tmp/v.mp4", "video/mp4", 200 * 1024 * 1024⟩

def c4Thumb : StagedFile := ⟨"/tmp/t.png", "image/png", 1000⟩

def c4GoodVideo : StagedFile := ⟨"/tmp/v.mp4", "video/mp4", 1000⟩

def c4BigThumb : StagedFile := ⟨"/tmp/t2.png", "image/png", 3 * 1024 * 1024⟩

def c4AvatarW : StagedFile := ⟨"/tmp/b.jpg", "image/jpeg", 4 * 1024 * 1024⟩

def c4ReqW : RegisterReq :=
  ⟨some "dana", some "d@e.ff", some "Dana D", some "secret1", [], [c4AvatarW]⟩

/-- C4 witness: a 200MB MP4 on publish trips multer and answers 500; a 3MB
PNG thumbnail with a small MP4 passes multer and answers 400 from the size
validator; the same pair satisfies the violation disjunction; a 4MB JPEG
cover image on register answers 500. All with unchanged state and an empty
remote-event trace. -/
theorem upload_validation_rejects_before_remote_witness :
    (publishRoute (fun _ => none) true true c4St
      ⟨some "T", some "D", some ⟨[c4BadVideo], [c4Thumb]⟩, 1⟩ 0 =
      ⟨.error ⟨500, "Internal Server Error"⟩, c4St, []⟩) ∧
    ((400 : Nat) = 400 ∧
      publishRoute (fun _ => none) true true c4St
        ⟨some "T", some "D", some ⟨[c4GoodVideo], [c4BigThumb]⟩, 1⟩ 0 =
        ⟨.error ⟨400, "Thumbnail file size cannot exceed 2MB"⟩, c4St, []⟩) ∧
    (∃ e : ApiError, (e.code = 400 ∨ e.code = 500) ∧
      publishRoute (fun _ => none) true true c4St
        ⟨some "T", some "D", some ⟨[c4GoodVideo], [c4BigThumb]⟩, 1⟩ 0 =
        ⟨.error e, c4St, []⟩) ∧
    (registerRoute (fun _ => none) [] 1 true c4ReqW =
      ⟨.error ⟨500, "Internal Server Error"⟩, [], []⟩) :=
  ⟨upload_validation_rejects_before_remote.1 (fun _ => none) true true c4St
      (some "T") (some "D") 1 0 ⟨[c4BadVideo], [c4Thumb]⟩ (.limitFileSize "videoFile") rfl,
   upload_validation_rejects_before_remote.2.1 (fun _ => none) true true c4St
      (some "T") (some "D") 1 0 ⟨[c4GoodVideo], [c4BigThumb]⟩
      ⟨400, "Thumbnail file size cannot exceed 2MB"⟩ rfl rfl,
   upload_validation_rejects_before_remote.2.2.1 (fun _ => none) true true c4St
      (some "T") (some "D") 1 0 c4GoodVideo c4BigThumb (.inr (by decide)),
   upload_validation_rejects_before_remote.2.2.2 (fun _ => none) [] 1 true c4ReqW
      c4AvatarW (.inr (by simp [c4ReqW])) (by decide)⟩

end YtClone
